import Mathlib

/-!
Verification development for the openperouter repository.

We shallowly embed the validation pipeline (internal/conversion), the
router-configuration reconcile pipeline (internal/controller/routerconfiguration),
the status aggregator (internal/status StatusManager), the status reconciler
(RouterNodeConfigurationStatusReconciler) and the L3VNI admission webhook
(internal/webhooks/l3vni_webhook.go) as executable Lean definitions, and prove
the specified properties about them.

Go machine integers (uint32 ASN / VNI values) are modelled as Nat; the
validators only compare them for equality, so no overflow arithmetic occurs.
Side effects (status reports, host-network calls, FRR updater calls) are
modelled as explicit event lists returned next to the Go function's result.
String scanning is performed on character lists so that every definition
reduces inside the kernel.
-/

deriving instance DecidableEq for Except

/-! ### Interface name validation (validate_vni.go: interfaceNameRegexp, isValidInterfaceName) -/

def isAlphaChar (c : Char) : Bool :=
  ('a' ≤ c && c ≤ 'z') || ('A' ≤ c && c ≤ 'Z')

def isIfaceNameChar (c : Char) : Bool :=
  isAlphaChar c || ('0' ≤ c && c ≤ '9') || c == '.' || c == '_' || c == '-'

/-- `interfaceNameRegexp.MatchString`, the regexp being
anchored `[a-zA-Z][a-zA-Z0-9._-]*` over the whole string. -/
def matchesIfaceRegexp (s : String) : Bool :=
  match s.toList with
  | [] => false
  | c :: rest => isAlphaChar c && rest.all isIfaceNameChar

/-- `isValidInterfaceName` from validate_vni.go, as the boolean
"no error returned": non-empty, at most 15 characters, matches the regexp.
(Go measures bytes; a non-ASCII name fails the regexp in both models, and on
ASCII names byte length equals character length, so the boolean agrees.) -/
def isValidInterfaceName (s : String) : Bool :=
  s.toList.length != 0 && s.toList.length ≤ 15 && matchesIfaceRegexp s

/-! ### IP address / CIDR parsing (Go net.ParseCIDR and friends) -/

/-- Split a character list on a separator character (like strings.Split). -/
def splitListOn (sep : Char) : List Char → List (List Char)
  | [] => [[]]
  | c :: rest =>
    let r := splitListOn sep rest
    if c == sep then [] :: r
    else (c :: r.headI) :: r.tail

/-- One dotted-decimal IPv4 octet: 1-3 digits, no leading zero, value ≤ 255. -/
def parseOctet (s : List Char) : Option Nat :=
  match s with
  | [] => none
  | _ :: _ =>
    if s.length > 3 then none
    else if !(s.all Char.isDigit) then none
    else if s.length > 1 && s.headI == '0' then none
    else
      let n := s.foldl (fun a c => a * 10 + (c.toNat - 48)) 0
      if n ≤ 255 then some n else none

/-- Go dotted-quad IPv4 parsing; result is the 32-bit address value. -/
def parseIPv4 (s : List Char) : Option Nat :=
  match (splitListOn '.' s).mapM parseOctet with
  | some [a, b, c, d] => some (((a * 256 + b) * 256 + c) * 256 + d)
  | _ => none

def hexDigitVal (c : Char) : Option Nat :=
  if c.isDigit then some (c.toNat - 48)
  else if 'a' ≤ c && c ≤ 'f' then some (c.toNat - 87)
  else if 'A' ≤ c && c ≤ 'F' then some (c.toNat - 55)
  else none

/-- Take up to four leading hex digits; returns (value, digit count, rest). -/
def takeHexGroup : List Char → Nat → Nat → (Nat × Nat × List Char)
  | [], acc, cnt => (acc, cnt, [])
  | c :: rest, acc, cnt =>
    if cnt ≥ 4 then (acc, cnt, c :: rest)
    else match hexDigitVal c with
      | some v => takeHexGroup rest (acc * 16 + v) (cnt + 1)
      | none => (acc, cnt, c :: rest)

/-- State of the IPv6 parsing loop: accumulated bytes and the byte position of
a `::` ellipsis if seen. -/
structure V6State where
  bytes : List Nat
  ellipsis : Option Nat
deriving Repr

/-- Main IPv6 group-parsing loop, modelled on netip.parseIPv6: parses hex
groups separated by `:`, at most one `::`, an optional embedded dotted
IPv4 tail, filling 16 bytes. The first argument is fuel (initially one more
than the character count). -/
def parseIPv6Loop : Nat → List Char → V6State → Option V6State
  | 0, _, _ => none
  | fuel + 1, s, st =>
    if st.bytes.length ≥ 16 then none
    else
      let (v, cnt, rest) := takeHexGroup s 0 0
      if cnt = 0 then none
      else if rest ≠ [] && rest.headI == '.' then
        -- Embedded IPv4 tail: reparse from the start of this group.
        if st.bytes.length > 12 then none
        else match parseIPv4 s with
          | none => none
          | some n =>
            some { st with bytes := st.bytes ++
              [n / 16777216, n / 65536 % 256, n / 256 % 256, n % 256] }
      else
        let st' := { st with bytes := st.bytes ++ [v / 256, v % 256] }
        match rest with
        | [] => some st'
        | ':' :: ':' :: tail =>
          if st'.ellipsis.isSome then none
          else
            let st'' := { st' with ellipsis := some st'.bytes.length }
            match tail with
            | [] => some st''
            | _ => parseIPv6Loop fuel tail st''
        | ':' :: tail =>
          if tail = [] then none
          else parseIPv6Loop fuel tail st'
        | _ => none

/-- Expand a parsed group list with its `::` ellipsis into 16 bytes. -/
def expandV6 (st : V6State) : Option (List Nat) :=
  if st.bytes.length = 16 then
    if st.ellipsis.isSome then none else some st.bytes
  else
    match st.ellipsis with
    | none => none
    | some e =>
      if e ≤ st.bytes.length && st.bytes.length < 16 then
        some (st.bytes.take e ++ List.replicate (16 - st.bytes.length) 0 ++ st.bytes.drop e)
      else none

def bytesToNat (l : List Nat) : Nat :=
  l.foldl (fun a b => a * 256 + b) 0

/-- Go textual IPv6 parsing (no zone); result is the 128-bit address value. -/
def parseIPv6 (cs : List Char) : Option Nat :=
  let start : Option (List Char × V6State) :=
    match cs with
    | ':' :: ':' :: rest => some (rest, { bytes := [], ellipsis := some 0 })
    | ':' :: _ => none
    | _ => some (cs, { bytes := [], ellipsis := none })
  match start with
  | none => none
  | some ([], st) =>
    if st.ellipsis.isSome then (expandV6 st).map bytesToNat else none
  | some (c :: rest, st) =>
    match parseIPv6Loop (rest.length + 2) (c :: rest) st with
    | none => none
    | some st' => (expandV6 st').map bytesToNat

/-- An IP address as parsed by Go `net`: a 4-byte or a 16-byte value. -/
inductive IPAddr
  | v4 (n : Nat)
  | v6 (n : Nat)
deriving DecidableEq, Repr

/-- netip.ParseAddr: the first special character decides the family;
we use ':'-presence, which yields the same success/failure outcomes. -/
def parseIPAddr (cs : List Char) : Option IPAddr :=
  if cs.contains ':' then (parseIPv6 cs).map IPAddr.v6
  else (parseIPv4 cs).map IPAddr.v4

def IPAddr.bitLen : IPAddr → Nat
  | .v4 _ => 32
  | .v6 _ => 128

/-- `IP.To4`: a 4-byte address, or an IPv4-mapped 16-byte address. -/
def IPAddr.to4 : IPAddr → Option Nat
  | .v4 n => some n
  | .v6 n => if n / 2 ^ 32 == 0xffff then some (n % 2 ^ 32) else none

/-- The value of `CIDRMask ones bits`: the top `ones` of `bits` bits set. -/
def maskValue (ones bits : Nat) : Nat := 2 ^ bits - 2 ^ (bits - ones)

/-- An `*net.IPNet`: the masked network address plus the CIDR mask length. -/
structure IPNet where
  ip : IPAddr
  ones : Nat
deriving DecidableEq, Repr

/-- Go mask-length suffix parsing (`dtoi` + full-consumption + range check). -/
def parseMaskLen (s : List Char) (bitLen : Nat) : Option Nat :=
  if s = [] then none
  else if !(s.all Char.isDigit) then none
  else
    let n := s.foldl (fun a c => a * 10 + (c.toNat - 48)) 0
    if n ≤ bitLen then some n else none

def IPAddr.maskWith : IPAddr → Nat → IPAddr
  | .v4 n, ones => .v4 (Nat.land n (maskValue ones 32))
  | .v6 n, ones => .v6 (Nat.land n (maskValue ones 128))

/-- Go `net.ParseCIDR`: returns the raw parsed address and the masked network. -/
def parseCIDR (s : String) : Option (IPAddr × IPNet) :=
  match splitListOn '/' s.toList with
  | [addr, mask] =>
    match parseIPAddr addr with
    | none => none
    | some ip =>
      match parseMaskLen mask ip.bitLen with
      | none => none
      | some ones => some (ip, { ip := ip.maskWith ones, ones := ones })
  | _ => none

/-- `(*IPNet).Contains`, including the `To4` normalization Go applies to both
the network (`networkNumberAndMask`) and the argument address. -/
def IPNet.containsIP (net : IPNet) (ip : IPAddr) : Bool :=
  match net.ip.to4 with
  | some nn4 =>
    let ones32 := match net.ip with
      | .v4 _ => net.ones
      | .v6 _ => net.ones - 96
    match ip.to4 with
    | some x => Nat.land x (maskValue ones32 32) == nn4
    | none => false
  | none =>
    match net.ip, ip.to4 with
    | .v6 nn, none =>
      match ip with
      | .v6 x => Nat.land x (maskValue net.ones 128) == nn
      | .v4 _ => false
    | _, _ => false

/-- `cidrsOverlap` from validate_vni.go: parse both CIDRs, then symmetric
containment of each raw address in the other network. -/
def cidrsOverlap (cidr1 cidr2 : String) : Except String Bool :=
  match parseCIDR cidr1 with
  | none => .error ("invalid CIDR " ++ cidr1)
  | some (ip1, net1) =>
    match parseCIDR cidr2 with
    | none => .error ("invalid CIDR " ++ cidr2)
    | some (ip2, net2) => .ok (net1.containsIP ip2 || net2.containsIP ip1)

/-- `isValidCIDR` from validate_vni.go, as a boolean: non-empty and parseable. -/
def isValidCIDR (s : String) : Bool :=
  s ≠ "" && (parseCIDR s).isSome

/-! ### Sanity checks of the parsing layer against concrete Go behaviour -/

theorem parse_sanity_v4 : (parseCIDR "192.168.1.0/24").isSome = true := by decide

theorem parse_sanity_v4_bad : (parseCIDR "not-a-cidr") = none := by decide

theorem parse_sanity_v6 : (parseCIDR "2001:db8::/64").isSome = true := by decide

theorem overlap_sanity_subset :
    cidrsOverlap "192.168.1.0/24" "192.168.1.128/25" = .ok true := by decide

theorem overlap_sanity_disjoint :
    cidrsOverlap "192.168.1.0/24" "192.168.2.0/24" = .ok false := by decide

theorem overlap_sanity_v6 :
    cidrsOverlap "2001:db8::/64" "2001:db8::/80" = .ok true := by decide

theorem overlap_sanity_mixed :
    cidrsOverlap "192.168.1.0/24" "2001:db8::/64" = .ok false := by decide

/-! ### Data model (api/v1alpha1 resource specs, as consumed by the validators) -/

/-- internal/status ResourceKind. -/
inductive ResourceKind
  | underlay
  | l2vni
  | l3vni
  | l3passthrough
deriving DecidableEq, Repr

def ResourceKind.str : ResourceKind → String
  | .underlay => "Underlay"
  | .l2vni => "L2VNI"
  | .l3vni => "L3VNI"
  | .l3passthrough => "L3Passthrough"

/-- One observable interaction with the StatusReporter collaborator. -/
inductive ReportEvent
  | failure (kind : ResourceKind) (name : String)
  | success (kind : ResourceKind) (name : String)
  | removed (kind : ResourceKind) (name : String)
deriving DecidableEq, Repr

structure LocalCIDRConfig where
  IPv4 : String := ""
  IPv6 : String := ""
deriving DecidableEq, Repr

structure HostSession where
  ASN : Nat
  HostASN : Nat
  LocalCIDR : LocalCIDRConfig := {}
deriving DecidableEq, Repr

structure L3VNI where
  name : String
  ns : String := ""
  VNI : Nat
  VRF : String := ""
  hostSession : Option HostSession := none
deriving DecidableEq, Repr

structure HostMaster where
  hmName : String := ""
  AutoCreate : Bool := false
deriving DecidableEq, Repr

structure L2VNI where
  name : String
  ns : String := ""
  VNI : Nat
  VRF : Option String := none
  hostMaster : Option HostMaster := none
  L2GatewayIPs : List String := []
deriving DecidableEq, Repr

structure Neighbor where
  ASN : Nat
  Address : String := ""
deriving DecidableEq, Repr

structure EVPNConfig where
  VTEPCIDR : String := ""
deriving DecidableEq, Repr

structure Underlay where
  name : String
  ASN : Nat
  Nics : List String := []
  Neighbors : List Neighbor := []
  EVPN : Option EVPNConfig := none
deriving DecidableEq, Repr

structure L3Passthrough where
  name : String
  hostSession : HostSession
deriving DecidableEq, Repr

/-- Modelled from the spec: the api/v1alpha1 L2VNI Go type (and so its
`VRFName` method) is not part of the provided sources. Per spec §3 an L2VNI's
VRF is optional and, when declared, names the routing domain the L2VNI links
to; `VRFName` therefore returns the declared VRF when present. When absent it
falls back to the object's own name, consistent with the repository's tests,
in which two L2VNIs without declared VRFs (and distinct valid names) validate
successfully. Every theorem below that depends on a VRF value uses L2VNIs with
an explicitly declared VRF, so only the `some` branch is load-bearing. -/
def L2VNI.VRFName (v : L2VNI) : String :=
  match v.VRF with
  | some s => s
  | none => v.name

/-! ### Validation errors -/

inductive ValidationError
  | tooManyUnderlays
  | underlayInvalidASN (underlay : String)
  | underlayAsnEqNeighbor (underlay : String) (asn : Nat)
  | underlayInvalidVtep (underlay cidr : String)
  | underlayTooManyNics (underlay : String) (found : Nat)
  | underlayInvalidNic (underlay nic : String)
  | invalidVrfName (vniName vrf : String)
  | duplicateVrf (vrf existing current : String)
  | duplicateVniNumber (vniNumber : Nat) (existing current : String)
  | invalidHostMasterName (vniName hostMasterName : String)
  | invalidL2GatewayIPs (vniName : String) (ips : List String)
  | hostAsnEqualsAsn (who : String) (asn : Nat)
  | invalidLocalCIDR (who cidr : String)
  | cidrOverlapCheck (msg : String)
  | overlappingCidrs (existing current who1 who2 : String)
  | missingLocalCIDR (who : String)
deriving DecidableEq, Repr

/-! ### ValidateUnderlays (validate_underlay.go) -/

/-- The nic-count and nic-name checks at the end of the underlay loop body. -/
def underlayNicsCheck (u : Underlay) : Option ValidationError :=
  if u.Nics.length > 1 then some (.underlayTooManyNics u.name u.Nics.length)
  else match u.Nics.find? (fun n => !(isValidInterfaceName n)) with
    | some n => some (.underlayInvalidNic u.name n)
    | none => none

/-- One iteration of the `for _, underlay := range underlays` loop body. -/
def underlayCheck (u : Underlay) : Option ValidationError :=
  if u.ASN = 0 then some (.underlayInvalidASN u.name)
  else match u.Neighbors.find? (fun n => u.ASN == n.ASN) with
    | some n => some (.underlayAsnEqNeighbor u.name n.ASN)
    | none =>
      match u.EVPN with
      | some e =>
        if (parseCIDR e.VTEPCIDR).isNone then some (.underlayInvalidVtep u.name e.VTEPCIDR)
        else underlayNicsCheck u
      | none => underlayNicsCheck u

def validateUnderlaysLoop : List Underlay → Option ValidationError × List ReportEvent
  | [] => (none, [])
  | u :: rest =>
    match underlayCheck u with
    | some e => (some e, [.failure .underlay u.name])
    | none => validateUnderlaysLoop rest

/-- `ValidateUnderlays`: the more-than-one check (which returns without any
status report), then the per-underlay loop (whose errors are each reported). -/
def ValidateUnderlays (underlays : List Underlay) : Option ValidationError × List ReportEvent :=
  if underlays.length > 1 then (some .tooManyUnderlays, [])
  else validateUnderlaysLoop underlays

/-! ### validateVNIs / ValidateL3VNIs / ValidateL2VNIs (validate_vni.go) -/

/-- The `vni` struct holding common VNI validation data. -/
structure VniRec where
  name : String
  vni : Nat
  vrfName : String
deriving DecidableEq, Repr

def vnisFromL3VNIs (l : List L3VNI) : List VniRec :=
  l.map (fun v => { name := v.name, vni := v.VNI, vrfName := v.VRF })

def vnisFromL2VNIs (l : List L2VNI) : List VniRec :=
  l.map (fun v => { name := v.name, vni := v.VNI, vrfName := v.VRFName })

def lookupAssoc (m : List (String × String)) (k : String) : Option String :=
  (m.find? (fun p => p.1 == k)).map (fun p => p.2)

def lookupAssocNat (m : List (Nat × String)) (k : Nat) : Option String :=
  (m.find? (fun p => p.1 == k)).map (fun p => p.2)

/-- `validateVNIs`: walks the records keeping the `existingVrfs` and
`existingVNIs` maps (association lists; keys are inserted at most once, so
lookup agrees with the Go map), reporting and returning the first violation. -/
def validateVNIs (kind : ResourceKind) :
    List VniRec → List (String × String) → List (Nat × String) →
    Option ValidationError × List ReportEvent
  | [], _, _ => (none, [])
  | v :: rest, vrfs, vnis =>
    if !(isValidInterfaceName v.vrfName) then
      (some (.invalidVrfName v.name v.vrfName), [.failure kind v.name])
    else match lookupAssoc vrfs v.vrfName with
      | some existing => (some (.duplicateVrf v.vrfName existing v.name), [.failure kind v.name])
      | none =>
        match lookupAssocNat vnis v.vni with
        | some existing => (some (.duplicateVniNumber v.vni existing v.name), [.failure kind v.name])
        | none => validateVNIs kind rest ((v.vrfName, v.name) :: vrfs) ((v.vni, v.name) :: vnis)

def ValidateL3VNIs (l3vnis : List L3VNI) : Option ValidationError × List ReportEvent :=
  validateVNIs .l3vni (vnisFromL3VNIs l3vnis) [] []

def cidrFamilyIsV4 (c : String) : Bool :=
  match parseCIDR c with
  | some (.v4 _, _) => true
  | _ => false

def cidrFamilyIsV6 (c : String) : Bool :=
  match parseCIDR c with
  | some (.v6 _, _) => true
  | _ => false

/-- Modelled from the spec: internal/ipfamily (`ForCIDRStrings`) is not part of
the provided sources. Per spec §4.1, the gateway IPs are parsed as CIDRs and
family-classified, with an error when one fails to parse or when two entries
share an address family ("at most one per address family"). This is the
boolean "no error". -/
def forCIDRStringsOk (cidrs : List String) : Bool :=
  cidrs.all (fun c => (parseCIDR c).isSome) &&
  cidrs.countP (fun c => cidrFamilyIsV4 c) ≤ 1 &&
  cidrs.countP (fun c => cidrFamilyIsV6 c) ≤ 1

/-- The L2GatewayIPs check of one L2VNI. -/
def l2GatewayCheck (v : L2VNI) : Option ValidationError :=
  if v.L2GatewayIPs.length > 0 && !(forCIDRStringsOk v.L2GatewayIPs) then
    some (.invalidL2GatewayIPs v.name v.L2GatewayIPs)
  else none

/-- The L2-specific checks of one L2VNI (HostMaster name, L2GatewayIPs). -/
def l2vniSpecificCheck (v : L2VNI) : Option ValidationError :=
  match v.hostMaster with
  | some hm =>
    if hm.hmName ≠ "" && !(isValidInterfaceName hm.hmName) then
      some (.invalidHostMasterName v.name hm.hmName)
    else l2GatewayCheck v
  | none => l2GatewayCheck v

def validateL2SpecificLoop : List L2VNI → Option ValidationError × List ReportEvent
  | [] => (none, [])
  | v :: rest =>
    match l2vniSpecificCheck v with
    | some e => (some e, [.failure .l2vni v.name])
    | none => validateL2SpecificLoop rest

/-- `ValidateL2VNIs`: common VNI validation (with a fresh pair of uniqueness
maps, independent from the L3VNI call), then the L2-specific loop. -/
def ValidateL2VNIs (l2vnis : List L2VNI) : Option ValidationError × List ReportEvent :=
  match validateVNIs .l2vni (vnisFromL2VNIs l2vnis) [] [] with
  | (some e, rs) => (some e, rs)
  | (none, rs) =>
    match validateL2SpecificLoop l2vnis with
    | (e, rs2) => (e, rs ++ rs2)

/-! ### ValidateHostSessions (validate_hostsession.go) -/

structure HostSessionInfo where
  session : HostSession
  kind : ResourceKind
  resourceName : String
deriving DecidableEq, Repr

/-- `hostSessionInfo.Name()`. -/
def HostSessionInfo.fullName (h : HostSessionInfo) : String :=
  h.kind.str ++ " " ++ h.resourceName

/-- The session-collection phase of `ValidateHostSessions`: L3VNIs with a
host session (in order), then all L3Passthroughs. -/
def collectHostSessions (l3 : List L3VNI) (pts : List L3Passthrough) : List HostSessionInfo :=
  l3.filterMap (fun v => v.hostSession.map
    (fun s => { session := s, kind := .l3vni, resourceName := v.name })) ++
  pts.map (fun p => { session := p.hostSession, kind := .l3passthrough, resourceName := p.name })

/-- The `for existing := range existingCIDRs` overlap scan inside
`validateCIDR`. Go iterates the map in unspecified order; we iterate in
insertion order, which yields the same error/no-error outcome because the
scan faults exactly when some entry overlaps (or fails to parse). -/
def scanOverlap (cidr who : String) : List (String × String) → Option ValidationError
  | [] => none
  | (ex, exWho) :: rest =>
    match cidrsOverlap ex cidr with
    | .error msg => some (.cidrOverlapCheck msg)
    | .ok true => some (.overlappingCidrs ex cidr exWho who)
    | .ok false => scanOverlap cidr who rest

/-- `validateCIDR` from validate_hostsession.go. -/
def validateCIDRGo (s : HostSessionInfo) (cidr : String) (existing : List (String × String)) :
    Option ValidationError :=
  if !(isValidCIDR cidr) then some (.invalidLocalCIDR s.fullName cidr)
  else scanOverlap cidr s.fullName existing

/-- The main loop of `ValidateHostSessions`, threading the `existingCIDRsV4`
and `existingCIDRsV6` maps (as insertion-ordered association lists). -/
def validateHostSessionsLoop :
    List HostSessionInfo → List (String × String) → List (String × String) →
    Option ValidationError × List ReportEvent
  | [], _, _ => (none, [])
  | s :: rest, v4s, v6s =>
    if s.session.HostASN == s.session.ASN then
      (some (.hostAsnEqualsAsn s.fullName s.session.ASN), [.failure s.kind s.resourceName])
    else
      match (if s.session.LocalCIDR.IPv4 ≠ "" then
               validateCIDRGo s s.session.LocalCIDR.IPv4 v4s else none) with
      | some e => (some e, [.failure s.kind s.resourceName])
      | none =>
        match (if s.session.LocalCIDR.IPv6 ≠ "" then
                 validateCIDRGo s s.session.LocalCIDR.IPv6 v6s else none) with
        | some e => (some e, [.failure s.kind s.resourceName])
        | none =>
          if s.session.LocalCIDR.IPv4 = "" && s.session.LocalCIDR.IPv6 = "" then
            (some (.missingLocalCIDR s.fullName), [.failure s.kind s.resourceName])
          else
            validateHostSessionsLoop rest
              (if s.session.LocalCIDR.IPv4 ≠ "" then
                 v4s ++ [(s.session.LocalCIDR.IPv4, s.fullName)] else v4s)
              (if s.session.LocalCIDR.IPv6 ≠ "" then
                 v6s ++ [(s.session.LocalCIDR.IPv6, s.fullName)] else v6s)

def ValidateHostSessions (l3 : List L3VNI) (pts : List L3Passthrough) :
    Option ValidationError × List ReportEvent :=
  validateHostSessionsLoop (collectHostSessions l3 pts) [] []

/-! ### Sanity checks mirroring the repository's Go unit tests -/

theorem sanity_l3vnis_valid :
    (ValidateL3VNIs [{ name := "vni1", VNI := 1001, VRF := "vrf1" },
                     { name := "vni2", VNI := 1002, VRF := "vrf2" }]).1 = none := by decide

theorem sanity_l3vnis_dup_vrf :
    (ValidateL3VNIs [{ name := "vni1", VNI := 1001, VRF := "vni1" },
                     { name := "vni2", VNI := 1002, VRF := "vni1" }]).1.isSome = true := by decide

theorem sanity_l3vnis_dup_vni :
    (ValidateL3VNIs [{ name := "vni1", VNI := 1001, VRF := "vrf1" },
                     { name := "vni2", VNI := 1001, VRF := "vrf2" }]).1.isSome = true := by decide

theorem sanity_l2vnis_valid :
    (ValidateL2VNIs [{ name := "vni1", VNI := 1001 },
                     { name := "vni2", VNI := 1002 }]).1 = none := by decide

theorem sanity_l2vnis_dup_vrf :
    (ValidateL2VNIs [{ name := "vni1", VNI := 1001, VRF := some "vrf1" },
                     { name := "vni2", VNI := 1002, VRF := some "vrf1" }]).1.isSome = true := by
  decide

theorem sanity_l2vnis_long_vrf :
    (ValidateL2VNIs [{ name := "vni1", VNI := 1001,
                       VRF := some "invalid-vrf-name-with-dashes" }]).1.isSome = true := by decide

theorem sanity_l2vnis_gateway_two_v4 :
    (ValidateL2VNIs [{ name := "vni1", VNI := 1001,
                       L2GatewayIPs := ["192.168.1.0/24", "192.168.2.0/24"] }]).1.isSome = true := by
  decide

theorem sanity_l2vnis_gateway_dual :
    (ValidateL2VNIs [{ name := "vni1", VNI := 1001,
                       L2GatewayIPs := ["192.168.1.0/24", "2001:db8::/64"] }]).1 = none := by decide

theorem sanity_hostsessions_overlap :
    (ValidateHostSessions
      [{ name := "vni1", VNI := 1001,
         hostSession := some { ASN := 65001, HostASN := 65002,
                               LocalCIDR := { IPv4 := "192.168.1.0/24" } } },
       { name := "vni2", VNI := 1002,
         hostSession := some { ASN := 65003, HostASN := 65004,
                               LocalCIDR := { IPv4 := "192.168.1.128/25" } } }] []).1.isSome
      = true := by decide

theorem sanity_hostsessions_mixed_families :
    (ValidateHostSessions
      [{ name := "vni1", VNI := 1001,
         hostSession := some { ASN := 65001, HostASN := 65002,
                               LocalCIDR := { IPv4 := "192.168.1.0/24" } } },
       { name := "vni2", VNI := 1002,
         hostSession := some { ASN := 65003, HostASN := 65004,
                               LocalCIDR := { IPv6 := "2001:db8::/64" } } }] []).1 = none := by
  decide

theorem sanity_hostsessions_same_asn :
    (ValidateHostSessions
      [{ name := "vni1", VNI := 100,
         hostSession := some { ASN := 65001, HostASN := 65001,
                               LocalCIDR := { IPv4 := "192.168.1.0/24" } } }] []).1.isSome
      = true := by decide

theorem sanity_hostsessions_passthrough_overlap :
    (ValidateHostSessions
      [{ name := "vni1", VNI := 1001,
         hostSession := some { ASN := 65001, HostASN := 65002,
                               LocalCIDR := { IPv4 := "192.168.1.0/24" } } }]
      [{ name := "passthrough1",
         hostSession := { ASN := 65003, HostASN := 65004,
                          LocalCIDR := { IPv4 := "192.168.1.128/25" } } }]).1.isSome = true := by
  decide

theorem sanity_underlay_zero_asn :
    (ValidateUnderlays [{ name := "u1", ASN := 0 }]).1.isSome = true := by decide

theorem sanity_underlay_valid :
    (ValidateUnderlays [{ name := "u1", ASN := 64514, Nics := ["eth0"],
                          Neighbors := [{ ASN := 64512 }],
                          EVPN := some { VTEPCIDR := "192.168.1.0/24" } }]).1 = none := by decide

/-! ### Go error values and errors.As (host_config.go taxonomy) -/

/-- Go error values as they occur in the reconcile pipeline: the two
distinguished sentinel types, validation errors, plain `fmt.Errorf` errors,
and `fmt.Errorf("...: %w", inner)` wrapping. -/
inductive GoErr
  | underlayRemoved
  | underlayExists (msg : String)
  | validation (e : ValidationError)
  | plain (msg : String)
  | wrap (msg : String) (inner : GoErr)
deriving DecidableEq, Repr

/-- The unwrap chain errors.As walks: the error itself, then Unwrap results. -/
def GoErr.chain : GoErr → List GoErr
  | .wrap msg inner => .wrap msg inner :: inner.chain
  | e => [e]

/-- `errors.As(e, &UnderlayRemovedError{})`: some chain element has dynamic
type UnderlayRemovedError (wrap nodes have type *fmt.wrapError, so only the
sentinel constructor matches). -/
def errorsAsUnderlayRemoved (e : GoErr) : Bool :=
  e.chain.any (fun x => match x with | .underlayRemoved => true | _ => false)

/-- `errors.As(e, &underlayExistsError)` for hostnetwork.UnderlayExistsError. -/
def errorsAsUnderlayExists (e : GoErr) : Bool :=
  e.chain.any (fun x => match x with | .underlayExists _ => true | _ => false)

/-- `nonRecoverableHostError` from host_config.go. -/
def nonRecoverableHostError (e : GoErr) : Bool :=
  if errorsAsUnderlayRemoved e then true else errorsAsUnderlayExists e

/-! ### Host-network configuration (configureInterfaces, host_config.go) -/

/-- One call to the hostnetwork collaborator, with the arguments the pipeline
passes that the claims mention. -/
inductive HostCall
  | hasUnderlayInterface
  | ensureIPv6Forwarding
  | setupUnderlay (underlayName : String)
  | setupL3VNI (vni : Nat)
  | setupL2VNI (vni : Nat)
  | setupPassthrough (passthroughName : String)
  | removeNonConfiguredVNIs (keep : List Nat)
  | removePassthrough
deriving DecidableEq, Repr

/-- Responses of the hostnetwork collaborator for one reconcile pass: the
hostnetwork package performs real netlink I/O (out of scope per spec §1), so
it is modelled as an oracle giving each call's outcome. -/
structure HostEnv where
  hasUnderlayResult : Except GoErr Bool
  ensureIPv6Result : Option GoErr := none
  setupUnderlayResult : Option GoErr := none
  setupL3VNIResult : Nat → Option GoErr := fun _ => none
  setupL2VNIResult : Nat → Option GoErr := fun _ => none
  setupPassthroughResult : Option GoErr := none
  removeVNIsResult : Option GoErr := none
  removePassthroughResult : Option GoErr := none

/-- The desired-state API resources handed to the pipeline
(conversion.ApiConfigData, restricted to the fields the pipeline reads). -/
structure ApiConfigData where
  Underlays : List Underlay := []
  L3VNIs : List L3VNI := []
  L2VNIs : List L2VNI := []
  L3Passthrough : List L3Passthrough := []

/-- Host-level descriptor for one L3VNI (hostnetwork.L3VNIParams, reduced to
the VNI key the pipeline looks descriptors up by). -/
structure L3VNIParams where
  VNI : Nat
deriving DecidableEq, Repr

structure L2VNIParams where
  VNI : Nat
deriving DecidableEq, Repr

structure HostConfig where
  hostL3VNIs : List L3VNIParams
  hostL2VNIs : List L2VNIParams
  hostPassthrough : Option String
deriving Repr

/-- Modelled from the spec: `conversion.APItoHostConfig` is not part of the
provided sources. Per spec §4.2 it is a pure, deterministic mapping producing
exactly one VRF+VXLAN descriptor per L3VNI and per L2VNI, keyed by VNI, plus
a standalone descriptor for the (≤1) L3Passthrough; its failure cases are
"programmer-error class ... should not occur post-validation", so the model
always succeeds. -/
def APItoHostConfig (api : ApiConfigData) : HostConfig :=
  { hostL3VNIs := api.L3VNIs.map (fun v => { VNI := v.VNI })
    hostL2VNIs := api.L2VNIs.map (fun v => { VNI := v.VNI })
    hostPassthrough := (api.L3Passthrough.head?).map (fun p => p.name) }

/-- `findHostL3VNI` from host_config.go. -/
def findHostL3VNI (hostL3VNIs : List L3VNIParams) (vni : Nat) : Option L3VNIParams :=
  hostL3VNIs.find? (fun h => h.VNI == vni)

def findHostL2VNI (hostL2VNIs : List L2VNIParams) (vni : Nat) : Option L2VNIParams :=
  hostL2VNIs.find? (fun h => h.VNI == vni)

/-- Result of one step of the pipeline: the Go error (if any), the host calls
made, and the status reports emitted, in order. -/
structure StepRes where
  err : Option GoErr
  calls : List HostCall
  reports : List ReportEvent
deriving Repr

/-- Sequencing: run the second step only if the first returned nil. -/
def StepRes.andThen (a : StepRes) (b : StepRes) : StepRes :=
  match a.err with
  | some _ => a
  | none => { err := b.err, calls := a.calls ++ b.calls, reports := a.reports ++ b.reports }

/-- The `for _, l3vni := range config.L3VNIs` setup loop. -/
def setupL3VNIsLoop (env : HostEnv) (hostL3 : List L3VNIParams) : List L3VNI → StepRes
  | [] => { err := none, calls := [], reports := [] }
  | v :: rest =>
    match findHostL3VNI hostL3 v.VNI with
    | none =>
      { err := some (.plain ("unexpected error, no host config found for L3VNI " ++ v.name)),
        calls := [], reports := [] }
    | some _ =>
      match env.setupL3VNIResult v.VNI with
      | some e =>
        { err := some (.wrap ("failed to setup L3VNI " ++ v.name) e),
          calls := [.setupL3VNI v.VNI], reports := [.failure .l3vni v.name] }
      | none =>
        ({ err := none, calls := [.setupL3VNI v.VNI],
           reports := [.success .l3vni v.name] } : StepRes).andThen
          (setupL3VNIsLoop env hostL3 rest)

def setupL2VNIsLoop (env : HostEnv) (hostL2 : List L2VNIParams) : List L2VNI → StepRes
  | [] => { err := none, calls := [], reports := [] }
  | v :: rest =>
    match findHostL2VNI hostL2 v.VNI with
    | none =>
      { err := some (.plain ("unexpected error, no host config found for L2VNI " ++ v.name)),
        calls := [], reports := [] }
    | some _ =>
      match env.setupL2VNIResult v.VNI with
      | some e =>
        { err := some (.wrap ("failed to setup L2VNI " ++ v.name) e),
          calls := [.setupL2VNI v.VNI], reports := [.failure .l2vni v.name] }
      | none =>
        ({ err := none, calls := [.setupL2VNI v.VNI],
           reports := [.success .l2vni v.name] } : StepRes).andThen
          (setupL2VNIsLoop env hostL2 rest)

/-- The underlay setup block (runs when at least one Underlay is declared). -/
def underlayStep (env : HostEnv) (api : ApiConfigData) : StepRes :=
  match api.Underlays.head? with
  | none => { err := none, calls := [], reports := [] }
  | some u =>
    match env.setupUnderlayResult with
    | some e =>
      { err := some (.wrap "failed to setup underlay" e),
        calls := [.setupUnderlay u.name], reports := [.failure .underlay u.name] }
    | none =>
      { err := none, calls := [.setupUnderlay u.name], reports := [.success .underlay u.name] }

/-- The passthrough setup block (runs when an L3Passthrough is declared). -/
def passthroughStep (env : HostEnv) (api : ApiConfigData) : StepRes :=
  match api.L3Passthrough.head? with
  | none => { err := none, calls := [], reports := [] }
  | some p =>
    match env.setupPassthroughResult with
    | some e =>
      { err := some (.wrap ("failed to setup L3Passthrough " ++ p.name) e),
        calls := [.setupPassthrough p.name], reports := [.failure .l3passthrough p.name] }
    | none =>
      { err := none, calls := [.setupPassthrough p.name],
        reports := [.success .l3passthrough p.name] }

/-- The stale-VNI removal block: collect the desired VNI numbers from the host
config (L3 then L2) and ask the host layer to remove all others. -/
def removeVNIsStep (env : HostEnv) (hostConfig : HostConfig) : StepRes :=
  let toCheck := hostConfig.hostL3VNIs.map (fun v => v.VNI) ++
                 hostConfig.hostL2VNIs.map (fun v => v.VNI)
  match env.removeVNIsResult with
  | some e =>
    { err := some (.wrap "failed to remove deleted vnis" e),
      calls := [.removeNonConfiguredVNIs toCheck], reports := [] }
  | none => { err := none, calls := [.removeNonConfiguredVNIs toCheck], reports := [] }

/-- The passthrough-removal block (runs when no L3Passthrough is declared). -/
def removePassthroughStep (env : HostEnv) (api : ApiConfigData) : StepRes :=
  if api.L3Passthrough.length == 0 then
    match env.removePassthroughResult with
    | some e =>
      { err := some (.wrap "failed to remove passthrough" e),
        calls := [.removePassthrough], reports := [] }
    | none => { err := none, calls := [.removePassthrough], reports := [] }
  else { err := none, calls := [], reports := [] }

/-- The EnsureIPv6Forwarding step. -/
def ensureIPv6Step (env : HostEnv) : StepRes :=
  match env.ensureIPv6Result with
  | some e =>
    { err := some (.wrap "failed to ensure IPv6 forwarding" e),
      calls := [.ensureIPv6Forwarding], reports := [] }
  | none => { err := none, calls := [.ensureIPv6Forwarding], reports := [] }

/-- `configureInterfaces` from host_config.go: underlay-removal detection,
early return when no underlay is declared, then IPv6 forwarding, underlay,
L3VNIs, L2VNIs, passthrough, stale-VNI cleanup and passthrough cleanup. -/
def configureInterfaces (env : HostEnv) (api : ApiConfigData) : StepRes :=
  match env.hasUnderlayResult with
  | .error e =>
    { err := some (.wrap "failed to check if target namespace has underlay" e),
      calls := [.hasUnderlayInterface], reports := [] }
  | .ok hasAlreadyUnderlay =>
    if hasAlreadyUnderlay && api.Underlays.length == 0 then
      { err := some .underlayRemoved, calls := [.hasUnderlayInterface], reports := [] }
    else if api.Underlays.length == 0 then
      { err := none, calls := [.hasUnderlayInterface], reports := [] }
    else
      ({ err := none, calls := [.hasUnderlayInterface], reports := [] } : StepRes).andThen
        ((ensureIPv6Step env).andThen
          ((underlayStep env api).andThen
            ((setupL3VNIsLoop env (APItoHostConfig api).hostL3VNIs api.L3VNIs).andThen
              ((setupL2VNIsLoop env (APItoHostConfig api).hostL2VNIs api.L2VNIs).andThen
                ((passthroughStep env api).andThen
                  ((removeVNIsStep env (APItoHostConfig api)).andThen
                    (removePassthroughStep env api)))))))

/-! ### Reconcile (reconcile.go) -/

/-- One call to the FRR ConfigUpdater collaborator. -/
inductive FrrCall
  | applyConfig
deriving DecidableEq, Repr

/-- Modelled from the spec: `configureFRR` (frr.go of the same package) is not
part of the provided sources. Per spec §4.3 step 2, it renders the FRR
configuration and pushes it through the FRR updater collaborator, aborting on
failure; the updater's outcome is the oracle `frrResult`. -/
def configureFRR (frrResult : Option GoErr) : Option GoErr × List FrrCall :=
  match frrResult with
  | some e => (some e, [.applyConfig])
  | none => (none, [.applyConfig])

/-- Full result of one `Reconcile` pass. -/
structure ReconcileRes where
  err : Option GoErr
  frrCalls : List FrrCall
  hostCalls : List HostCall
  reports : List ReportEvent
deriving Repr

/-- `Reconcile` from reconcile.go: the four validators in order, then FRR
config push, then host interface configuration; each failure aborts the
remaining steps and returns the (wrapped) error. -/
def Reconcile (env : HostEnv) (frrResult : Option GoErr) (api : ApiConfigData) : ReconcileRes :=
  match ValidateUnderlays api.Underlays with
  | (some e, rs) =>
    { err := some (.wrap "failed to validate underlays" (.validation e)),
      frrCalls := [], hostCalls := [], reports := rs }
  | (none, rs0) =>
    match ValidateL3VNIs api.L3VNIs with
    | (some e, rs) =>
      { err := some (.wrap "failed to validate l3vnis" (.validation e)),
        frrCalls := [], hostCalls := [], reports := rs0 ++ rs }
    | (none, rs1) =>
      match ValidateL2VNIs api.L2VNIs with
      | (some e, rs) =>
        { err := some (.wrap "failed to validate l2vnis" (.validation e)),
          frrCalls := [], hostCalls := [], reports := rs0 ++ rs1 ++ rs }
      | (none, rs2) =>
        match ValidateHostSessions api.L3VNIs api.L3Passthrough with
        | (some e, rs) =>
          { err := some (.wrap "failed to validate host sessions" (.validation e)),
            frrCalls := [], hostCalls := [], reports := rs0 ++ rs1 ++ rs2 ++ rs }
        | (none, rs3) =>
          let pre := rs0 ++ rs1 ++ rs2 ++ rs3
          match configureFRR frrResult with
          | (some e, fcs) =>
            { err := some (.wrap "failed to reload frr config" e),
              frrCalls := fcs, hostCalls := [], reports := pre }
          | (none, fcs) =>
            let host := configureInterfaces env api
            { err := (host.err).map (fun e => .wrap "failed to configure the host" e),
              frrCalls := fcs, hostCalls := host.calls, reports := pre ++ host.reports }

/-! ### StatusManager (internal/status, unnamed part_002) -/

/-- `failedResourceCacheEntry`. Timestamps are abstract Nat instants. -/
structure CacheEntry where
  kind : ResourceKind
  resourceName : String
  errorMessage : String
  timestamp : Nat
deriving DecidableEq, Repr

/-- StatusManager state: the failure cache (a Go map keyed by "kind:name",
modelled as an association list with unique keys) and the bounded trigger
channel, modelled by its queued events (buffered channel of capacity `cap`). -/
structure SMState where
  cache : List (String × CacheEntry)
  channel : List Unit
  cap : Nat
deriving Repr

def statusKey (kind : ResourceKind) (resourceName : String) : String :=
  kind.str ++ ":" ++ resourceName

def assocUpsert (m : List (String × CacheEntry)) (k : String) (v : CacheEntry) :
    List (String × CacheEntry) :=
  if m.any (fun p => p.1 == k) then m.map (fun p => if p.1 == k then (k, v) else p)
  else m ++ [(k, v)]

def assocDelete (m : List (String × CacheEntry)) (k : String) : List (String × CacheEntry) :=
  m.filter (fun p => p.1 ≠ k)

/-- `sendTriggerEvent`: non-blocking send on the bounded channel; the event is
dropped when the channel is full. -/
def sendTriggerEvent (s : SMState) : SMState :=
  if s.channel.length < s.cap then { s with channel := s.channel ++ [()] } else s

/-- `ReportResourceSuccess`: delete any cached failure, then trigger. -/
def reportResourceSuccess (s : SMState) (kind : ResourceKind) (resourceName : String) : SMState :=
  sendTriggerEvent { s with cache := assocDelete s.cache (statusKey kind resourceName) }

/-- `ReportResourceFailure`: insert/overwrite the failure entry, then trigger. -/
def reportResourceFailure (s : SMState) (kind : ResourceKind) (resourceName : String)
    (errorMessage : String) (now : Nat) : SMState :=
  let entry : CacheEntry :=
    { kind := kind, resourceName := resourceName,
      errorMessage := errorMessage, timestamp := now }
  sendTriggerEvent { s with cache := assocUpsert s.cache (statusKey kind resourceName) entry }

/-- `ReportResourceRemoved`: delete the entry; trigger only if it existed. -/
def reportResourceRemoved (s : SMState) (kind : ResourceKind) (resourceName : String) : SMState :=
  let existed := s.cache.any (fun p => p.1 == statusKey kind resourceName)
  let s' := { s with cache := assocDelete s.cache (statusKey kind resourceName) }
  if existed then sendTriggerEvent s' else s'

/-! ### Status reconciler (RouterNodeConfigurationStatusReconciler, unnamed part_001) -/

/-- api/v1alpha1 FailedResource. -/
structure FailedResource where
  kind : String
  name : String
  message : String
deriving DecidableEq, Repr

/-- metav1.Condition, restricted to the fields the reconciler sets. -/
structure StatusCondition where
  condType : String
  condStatus : String
  reason : String
  message : String
  lastTransitionTime : Nat
deriving DecidableEq, Repr

/-- RouterNodeConfigurationStatusStatus. A `none` lastUpdateTime is Go nil;
lastTransitionTime 0 is the metav1.Time zero value. -/
structure RNCStatus where
  lastUpdateTime : Option Nat
  failedResources : List FailedResource
  conditions : List StatusCondition
deriving DecidableEq, Repr

/-- `statusEqual`: copy both statuses, nil the top-level LastUpdateTime, zero
every condition's LastTransitionTime, then reflect.DeepEqual (structural
equality on the model). -/
def statusEqual (a b : RNCStatus) : Bool :=
  let aCopy : RNCStatus :=
    { a with lastUpdateTime := none,
             conditions := a.conditions.map
               (fun (c : StatusCondition) => { c with lastTransitionTime := 0 }) }
  let bCopy : RNCStatus :=
    { b with lastUpdateTime := none,
             conditions := b.conditions.map
               (fun (c : StatusCondition) => { c with lastTransitionTime := 0 }) }
  aCopy == bCopy

/-- Spec-side formulation (§4.6 / claim C8): the status after "normalizing away
timestamp fields", i.e. both the top-level LastUpdateTime and each condition's
LastTransitionTime. Two statuses should be treated as equal exactly when their
normalizations coincide. -/
def specNormalizedStatus (s : RNCStatus) : RNCStatus :=
  { s with lastUpdateTime := none,
           conditions := s.conditions.map (fun c => { c with lastTransitionTime := 0 }) }

/-- FailedResourceInfo from the StatusSummary. -/
structure FailedResourceInfo where
  kind : ResourceKind
  name : String
  errorMessage : String
deriving DecidableEq, Repr

def buildFailureMessageFromCount (failedCount : Nat) : String :=
  if failedCount > 0 then toString failedCount ++ " resource(s) failed"
  else "Configuration failed"

/-- `buildConditions`: the Ready/Degraded pair, stamped with `now`. -/
def buildConditions (failedCount : Nat) (now : Nat) : List StatusCondition :=
  if failedCount > 0 then
    [{ condType := "Ready", condStatus := "False", reason := "ConfigurationFailed",
       message := "Some OpenPERouter configurations failed", lastTransitionTime := now },
     { condType := "Degraded", condStatus := "True", reason := "ConfigurationFailed",
       message := buildFailureMessageFromCount failedCount, lastTransitionTime := now }]
  else
    [{ condType := "Ready", condStatus := "True", reason := "ConfigurationSuccessful",
       message := "All OpenPERouter configurations are successful", lastTransitionTime := now },
     { condType := "Degraded", condStatus := "False", reason := "ConfigurationSuccessful",
       message := "All configurations are healthy", lastTransitionTime := now }]

/-- `buildStatus`: convert the summary's failed resources, stamp
LastUpdateTime with now, and attach the built conditions. -/
def buildStatus (failed : List FailedResourceInfo) (now : Nat) : RNCStatus :=
  let failedResources := failed.map
    (fun f => { kind := f.kind.str, name := f.name, message := f.errorMessage })
  { lastUpdateTime := some now,
    failedResources := failedResources,
    conditions := buildConditions failedResources.length now }

/-- The patch decision at the end of `Reconcile` (status controller): given
the currently stored status (after the get-or-create phase) and the freshly
built status, patch only when `statusEqual` says they differ. `patched` is
whether a status patch was issued; `finalStatus` is what the store holds
afterwards. -/
structure PatchDecision where
  patched : Bool
  finalStatus : RNCStatus
deriving DecidableEq, Repr

def statusReconcileStep (stored : RNCStatus) (failed : List FailedResourceInfo) (now : Nat) :
    PatchDecision :=
  let newStatus := buildStatus failed now
  if statusEqual stored newStatus then { patched := false, finalStatus := stored }
  else { patched := true, finalStatus := newStatus }

/-! ### L3VNI admission webhook (l3vni_webhook.go) -/

inductive WebhookErr
  | localCIDRChanged
  | resourceValidation (e : ValidationError)
deriving DecidableEq, Repr

/-- `localCIDR`: a nil HostSession is treated as an empty LocalCIDRConfig. -/
def localCIDR (hs : Option HostSession) : LocalCIDRConfig :=
  match hs with
  | none => {}
  | some h => h.LocalCIDR

/-- The toValidate construction inside `validateL3VNI`: the cluster's existing
L3VNIs with the incoming object substituted for its stored version (matched by
name and namespace), appended if not present. -/
def webhookToValidate (l3vni : L3VNI) (existing : List L3VNI) : List L3VNI :=
  if existing.any (fun e => e.name == l3vni.name && e.ns == l3vni.ns) then
    existing.map (fun e => if e.name == l3vni.name && e.ns == l3vni.ns then l3vni else e)
  else existing ++ [l3vni]

/-- `validateL3VNI`: run ValidateL3VNIs (wired in main to
conversion.ValidateL3VNIs with a NoOpStatusReporter) on the union of
existing-plus-incoming, then ValidateHostSessions against the cluster's
L3Passthroughs. The cluster lists are parameters (the client list calls are
read-only collaborator lookups). -/
def validateL3VNI (l3vni : L3VNI) (existing : List L3VNI) (pts : List L3Passthrough) :
    Option WebhookErr :=
  let toValidate := webhookToValidate l3vni existing
  match (ValidateL3VNIs toValidate).1 with
  | some e => some (.resourceValidation e)
  | none =>
    match (ValidateHostSessions toValidate pts).1 with
    | some e => some (.resourceValidation e)
    | none => none

/-- `validateL3VNIUpdate`: reject any change of the HostSession LocalCIDR,
then fall through to full validation. -/
def validateL3VNIUpdate (l3vni oldL3VNI : L3VNI) (existing : List L3VNI)
    (pts : List L3Passthrough) : Option WebhookErr :=
  if localCIDR oldL3VNI.hostSession ≠ localCIDR l3vni.hostSession then some .localCIDRChanged
  else validateL3VNI l3vni existing pts

inductive AdmissionOp
  | create
  | update
  | delete
deriving DecidableEq, Repr

inductive AdmissionResponse
  | allowed
  | denied (e : WebhookErr)
deriving DecidableEq, Repr

/-- `L3VNIValidator.Handle`, after successful decoding: dispatch on the
operation, denying with the validation error and allowing otherwise
(`validateL3VNIDelete` always returns nil). -/
def L3VNIValidatorHandle (op : AdmissionOp) (l3vni oldL3VNI : L3VNI)
    (existing : List L3VNI) (pts : List L3Passthrough) : AdmissionResponse :=
  match op with
  | .create =>
    match validateL3VNI l3vni existing pts with
    | some e => .denied e
    | none => .allowed
  | .update =>
    match validateL3VNIUpdate l3vni oldL3VNI existing pts with
    | some e => .denied e
    | none => .allowed
  | .delete => .allowed

/-! ### Helper lemmas -/

/-- Claim-side classification: the error is, or transitively wraps, one of the
two non-recoverable sentinels (UnderlayRemovedError / UnderlayExistsError). -/
def IsOrWrapsNonRecoverable : GoErr → Prop
  | .wrap _ inner => IsOrWrapsNonRecoverable inner
  | .underlayRemoved => True
  | .underlayExists _ => True
  | .validation _ => False
  | .plain _ => False

theorem errorsAsUnderlayRemoved_wrap (m : String) (i : GoErr) :
    errorsAsUnderlayRemoved (.wrap m i) = errorsAsUnderlayRemoved i := by
  simp [errorsAsUnderlayRemoved, GoErr.chain]

theorem errorsAsUnderlayExists_wrap (m : String) (i : GoErr) :
    errorsAsUnderlayExists (.wrap m i) = errorsAsUnderlayExists i := by
  simp [errorsAsUnderlayExists, GoErr.chain]

theorem nonRecoverable_iff_isOrWraps (e : GoErr) :
    nonRecoverableHostError e = true ↔ IsOrWrapsNonRecoverable e := by
  induction e with
  | underlayRemoved =>
    simp [nonRecoverableHostError, errorsAsUnderlayRemoved, GoErr.chain, IsOrWrapsNonRecoverable]
  | underlayExists msg =>
    simp [nonRecoverableHostError, errorsAsUnderlayRemoved, errorsAsUnderlayExists,
          GoErr.chain, IsOrWrapsNonRecoverable]
  | validation e =>
    simp [nonRecoverableHostError, errorsAsUnderlayRemoved, errorsAsUnderlayExists,
          GoErr.chain, IsOrWrapsNonRecoverable]
  | plain msg =>
    simp [nonRecoverableHostError, errorsAsUnderlayRemoved, errorsAsUnderlayExists,
          GoErr.chain, IsOrWrapsNonRecoverable]
  | wrap m inner ih =>
    rw [show IsOrWrapsNonRecoverable (.wrap m inner) = IsOrWrapsNonRecoverable inner from rfl,
        ← ih]
    unfold nonRecoverableHostError
    rw [errorsAsUnderlayRemoved_wrap, errorsAsUnderlayExists_wrap]

/-- An error outcome that can only be a wrap or a plain error (never a bare
sentinel). -/
def OptErrSafe (o : Option GoErr) : Prop :=
  ∀ e, o = some e → (∃ m i, e = GoErr.wrap m i) ∨ (∃ m, e = GoErr.plain m)

theorem optErrSafe_none : OptErrSafe none := by
  intro e he; cases he

theorem andThen_err_none (a b : StepRes) (h : a.err = none) : (a.andThen b).err = b.err := by
  rw [StepRes.andThen, h]

theorem andThen_err_some (a b : StepRes) (x : GoErr) (h : a.err = some x) :
    (a.andThen b).err = some x := by
  rw [StepRes.andThen, h]; exact h

theorem andThen_safe {a b : StepRes} (ha : OptErrSafe a.err) (hb : OptErrSafe b.err) :
    OptErrSafe (a.andThen b).err := by
  intro e he
  cases h : a.err with
  | none => exact hb e ((andThen_err_none a b h).symm.trans he)
  | some x =>
    have hx : some x = some e := (andThen_err_some a b x h).symm.trans he
    exact ha e (h.trans hx)

theorem underlayStep_safe (env : HostEnv) (api : ApiConfigData) :
    OptErrSafe (underlayStep env api).err := by
  unfold underlayStep
  cases api.Underlays.head? with
  | none => exact optErrSafe_none
  | some u =>
    cases env.setupUnderlayResult with
    | none => exact optErrSafe_none
    | some e => intro x hx; simp at hx; exact Or.inl ⟨_, _, hx.symm⟩

theorem passthroughStep_safe (env : HostEnv) (api : ApiConfigData) :
    OptErrSafe (passthroughStep env api).err := by
  unfold passthroughStep
  cases api.L3Passthrough.head? with
  | none => exact optErrSafe_none
  | some p =>
    cases env.setupPassthroughResult with
    | none => exact optErrSafe_none
    | some e => intro x hx; simp at hx; exact Or.inl ⟨_, _, hx.symm⟩

theorem removeVNIsStep_safe (env : HostEnv) (hc : HostConfig) :
    OptErrSafe (removeVNIsStep env hc).err := by
  unfold removeVNIsStep
  cases env.removeVNIsResult with
  | none => exact optErrSafe_none
  | some e => intro x hx; simp at hx; exact Or.inl ⟨_, _, hx.symm⟩

theorem removePassthroughStep_safe (env : HostEnv) (api : ApiConfigData) :
    OptErrSafe (removePassthroughStep env api).err := by
  unfold removePassthroughStep
  by_cases h : (api.L3Passthrough.length == 0) = true
  · simp only [h, if_true]
    cases env.removePassthroughResult with
    | none => exact optErrSafe_none
    | some e => intro x hx; simp at hx; exact Or.inl ⟨_, _, hx.symm⟩
  · simp only [Bool.not_eq_true] at h
    simp only [h, Bool.false_eq_true, if_false]
    exact optErrSafe_none

theorem setupL3VNIsLoop_safe (env : HostEnv) (hostL3 : List L3VNIParams) (l : List L3VNI) :
    OptErrSafe (setupL3VNIsLoop env hostL3 l).err := by
  induction l with
  | nil => exact optErrSafe_none
  | cons v rest ih =>
    unfold setupL3VNIsLoop
    cases findHostL3VNI hostL3 v.VNI with
    | none => intro x hx; simp at hx; exact Or.inr ⟨_, hx.symm⟩
    | some p =>
      cases env.setupL3VNIResult v.VNI with
      | some e => intro x hx; simp at hx; exact Or.inl ⟨_, _, hx.symm⟩
      | none => exact andThen_safe optErrSafe_none ih

theorem setupL2VNIsLoop_safe (env : HostEnv) (hostL2 : List L2VNIParams) (l : List L2VNI) :
    OptErrSafe (setupL2VNIsLoop env hostL2 l).err := by
  induction l with
  | nil => exact optErrSafe_none
  | cons v rest ih =>
    unfold setupL2VNIsLoop
    cases findHostL2VNI hostL2 v.VNI with
    | none => intro x hx; simp at hx; exact Or.inr ⟨_, hx.symm⟩
    | some p =>
      cases env.setupL2VNIResult v.VNI with
      | some e => intro x hx; simp at hx; exact Or.inl ⟨_, _, hx.symm⟩
      | none => exact andThen_safe optErrSafe_none ih

/-- In the main configuration branch (at least one declared Underlay, check
succeeded), every error is a wrap or plain error, never a bare sentinel. -/
theorem configureInterfaces_tail_safe (env : HostEnv) (api : ApiConfigData)
    (b : Bool) (h : env.hasUnderlayResult = .ok b)
    (hlen : (api.Underlays.length == 0) = false) :
    OptErrSafe (configureInterfaces env api).err := by
  unfold configureInterfaces
  rw [h]
  simp only [hlen, Bool.and_false, Bool.false_eq_true, if_false]
  apply andThen_safe optErrSafe_none
  apply andThen_safe
  · rw [ensureIPv6Step]
    cases henv : env.ensureIPv6Result with
    | none => exact optErrSafe_none
    | some e => intro x hx; simp at hx; exact Or.inl ⟨_, _, hx.symm⟩
  apply andThen_safe (underlayStep_safe env api)
  apply andThen_safe (setupL3VNIsLoop_safe env _ _)
  apply andThen_safe (setupL2VNIsLoop_safe env _ _)
  apply andThen_safe (passthroughStep_safe env api)
  exact andThen_safe (removeVNIsStep_safe env _) (removePassthroughStep_safe env api)

/-! ### Claim C3 -/

/-- C3: `configureInterfaces` returns `UnderlayRemovedError` exactly when the
target namespace already has an underlay interface (the host check succeeded
and reported true) while zero Underlays are declared in the desired set, and
`nonRecoverableHostError e` is true iff `e` is or wraps `UnderlayRemovedError`
or the host-network layer's `UnderlayExistsError`; every other error is
classified recoverable. -/
theorem c3_underlay_removed_and_classification (env : HostEnv) (api : ApiConfigData) (b : Bool)
    (h : env.hasUnderlayResult = .ok b) :
    ((configureInterfaces env api).err = some GoErr.underlayRemoved ↔
      (b = true ∧ api.Underlays = []))
    ∧ (∀ e : GoErr, nonRecoverableHostError e = true ↔ IsOrWrapsNonRecoverable e) := by
  refine ⟨?_, fun e => nonRecoverable_iff_isOrWraps e⟩
  cases hU : api.Underlays with
  | nil =>
    have hlen : (api.Underlays.length == 0) = true := by rw [hU]; rfl
    unfold configureInterfaces
    rw [h]
    cases b with
    | true => simp [hlen, hU]
    | false => simp [hlen, hU]
  | cons u us =>
    have hlen : (api.Underlays.length == 0) = false := by rw [hU]; rfl
    constructor
    · intro habs
      rcases configureInterfaces_tail_safe env api b h hlen _ habs with ⟨m, i, hw⟩ | ⟨m, hw⟩
      · cases hw
      · cases hw
    · rintro ⟨-, habs⟩
      cases habs

/-- Witness for C3 at a concrete input: with a (successfully) detected
existing underlay and an empty desired Underlay set, the function returns
exactly `UnderlayRemovedError`. -/
theorem c3_witness :
    (((configureInterfaces { hasUnderlayResult := .ok true } {}).err =
        some GoErr.underlayRemoved ↔ (true = true ∧ ({} : ApiConfigData).Underlays = []))
      ∧ (∀ e : GoErr, nonRecoverableHostError e = true ↔ IsOrWrapsNonRecoverable e)) :=
  c3_underlay_removed_and_classification { hasUnderlayResult := .ok true } {} true rfl

/-! ### Claim C7 (corrected) -/

/-- C7 counterexample: `ReportResourceRemoved` for a key absent from the
failure cache enqueues no trigger event even though the channel is empty
(far from full), refuting "every mutating call enqueues exactly one trigger
event ... except that when the channel is full the trigger is dropped". -/
theorem c7_counterexample :
    (reportResourceRemoved { cache := [], channel := [], cap := 100 } .l3vni "vni1").channel = []
    ∧ ([] : List Unit).length < 100 := by
  constructor
  · rfl
  · decide

/-- C7 amended: `ReportResourceSuccess` and `ReportResourceFailure` always
enqueue exactly one trigger on the bounded channel unless it is full (then the
trigger is dropped without blocking); `ReportResourceRemoved` does so only
when the key was actually present in the failure cache, and enqueues nothing
otherwise. -/
theorem c7_trigger_behaviour (s : SMState) (kind : ResourceKind) (resourceName msg : String)
    (now : Nat) :
    ((reportResourceSuccess s kind resourceName).channel =
      if s.channel.length < s.cap then s.channel ++ [()] else s.channel)
    ∧ ((reportResourceFailure s kind resourceName msg now).channel =
      if s.channel.length < s.cap then s.channel ++ [()] else s.channel)
    ∧ ((reportResourceRemoved s kind resourceName).channel =
      if s.cache.any (fun p => p.1 == statusKey kind resourceName) then
        (if s.channel.length < s.cap then s.channel ++ [()] else s.channel)
      else s.channel) := by
  refine ⟨?_, ?_, ?_⟩
  · rw [reportResourceSuccess, sendTriggerEvent]
    by_cases hc : s.channel.length < s.cap <;> simp [hc]
  · rw [reportResourceFailure]
    rw [sendTriggerEvent]
    by_cases hc : s.channel.length < s.cap <;> simp [hc]
  · rw [reportResourceRemoved]
    by_cases hex : s.cache.any (fun p => p.1 == statusKey kind resourceName) = true
    · simp only [hex, if_true]
      rw [sendTriggerEvent]
      by_cases hc : s.channel.length < s.cap <;> simp [hc]
    · simp only [Bool.not_eq_true] at hex
      simp only [hex, Bool.false_eq_true, if_false]

/-! ### Claim C8 -/

/-- C8: `statusEqual a b` is true iff `a` and `b` are structurally equal after
normalizing timestamps (top-level LastUpdateTime set to nil, every condition's
LastTransitionTime zeroed), and when `statusEqual` holds between the stored
status and the freshly built one, the reconciler issues no status patch and
the stored object is left unchanged. -/
theorem c8_status_equality_and_frame (a b stored : RNCStatus)
    (failed : List FailedResourceInfo) (now : Nat) :
    (statusEqual a b = true ↔ specNormalizedStatus a = specNormalizedStatus b)
    ∧ (statusEqual stored (buildStatus failed now) = true →
        statusReconcileStep stored failed now = { patched := false, finalStatus := stored }) := by
  constructor
  · rw [statusEqual]
    rw [show specNormalizedStatus a =
      { a with lastUpdateTime := none,
               conditions := a.conditions.map
                 (fun (c : StatusCondition) => { c with lastTransitionTime := 0 }) } from rfl]
    rw [show specNormalizedStatus b =
      { b with lastUpdateTime := none,
               conditions := b.conditions.map
                 (fun (c : StatusCondition) => { c with lastTransitionTime := 0 }) } from rfl]
    exact beq_iff_eq
  · intro heq
    rw [statusReconcileStep]
    simp only [heq, if_true]

/-- Witness for C8: two builds of the same (empty-failure) status at different
instants are statusEqual, and the reconcile step leaves the stored status
untouched without patching. -/
theorem c8_witness :
    statusReconcileStep (buildStatus [] 3) [] 7 =
      { patched := false, finalStatus := buildStatus [] 3 } :=
  (c8_status_equality_and_frame (buildStatus [] 3) (buildStatus [] 3) (buildStatus [] 3)
    [] 7).2 (by decide)

/-! ### Claim C10 -/

/-- C10: whenever the old and new L3VNIs' HostSession LocalCIDR configurations
differ (nil HostSession read as the empty LocalCIDR), `validateL3VNIUpdate`
returns an error and `Handle` denies the update: LocalCIDR is immutable
across admitted updates. -/
theorem c10_localcidr_immutable (l3vni oldL3VNI : L3VNI) (existing : List L3VNI)
    (pts : List L3Passthrough)
    (h : localCIDR oldL3VNI.hostSession ≠ localCIDR l3vni.hostSession) :
    validateL3VNIUpdate l3vni oldL3VNI existing pts = some .localCIDRChanged
    ∧ L3VNIValidatorHandle .update l3vni oldL3VNI existing pts =
        .denied .localCIDRChanged := by
  have hv : validateL3VNIUpdate l3vni oldL3VNI existing pts = some .localCIDRChanged := by
    rw [validateL3VNIUpdate]
    rw [if_pos h]
  refine ⟨hv, ?_⟩
  rw [L3VNIValidatorHandle]
  rw [hv]

/-- Witness for C10: changing an L3VNI's IPv4 LocalCIDR is rejected. -/
theorem c10_witness :
    validateL3VNIUpdate
      { name := "vni1", VNI := 100, VRF := "red",
        hostSession := some { ASN := 65001, HostASN := 65002,
                              LocalCIDR := { IPv4 := "192.168.2.0/24" } } }
      { name := "vni1", VNI := 100, VRF := "red",
        hostSession := some { ASN := 65001, HostASN := 65002,
                              LocalCIDR := { IPv4 := "192.168.1.0/24" } } } [] []
      = some .localCIDRChanged
    ∧ L3VNIValidatorHandle .update
      { name := "vni1", VNI := 100, VRF := "red",
        hostSession := some { ASN := 65001, HostASN := 65002,
                              LocalCIDR := { IPv4 := "192.168.2.0/24" } } }
      { name := "vni1", VNI := 100, VRF := "red",
        hostSession := some { ASN := 65001, HostASN := 65002,
                              LocalCIDR := { IPv4 := "192.168.1.0/24" } } } [] []
      = .denied .localCIDRChanged :=
  c10_localcidr_immutable _ _ [] [] (by decide)

/-! ### Claim C9 (corrected) -/

/-- C9 counterexample: a two-element underlay list containing a zero-ASN
underlay hits the "more than one underlay" branch, which returns an error
without reporting any failure — so no failure is reported "for that underlay",
refuting the claim as stated. -/
theorem c9_counterexample :
    (ValidateUnderlays [{ name := "u0", ASN := 0 },
                        { name := "u1", ASN := 64514 }]).1 = some .tooManyUnderlays
    ∧ (ValidateUnderlays [{ name := "u0", ASN := 0 },
                          { name := "u1", ASN := 64514 }]).2 = [] := by
  constructor
  · rfl
  · rfl

/-- C9 amended: a zero ASN never passes underlay validation — an error is
always returned — and whenever the list has at most one underlay (so the
per-underlay loop is reached), the failure is additionally reported for the
zero-ASN underlay. -/
theorem c9_zero_asn (us : List Underlay) (u : Underlay) (hmem : u ∈ us) (hasn : u.ASN = 0) :
    (ValidateUnderlays us).1.isSome = true
    ∧ (us.length ≤ 1 → (ValidateUnderlays us).2 = [.failure .underlay u.name]) := by
  cases us with
  | nil => cases hmem
  | cons x rest =>
    cases rest with
    | nil =>
      have hux : u = x := List.mem_singleton.mp hmem
      subst hux
      have hchk : underlayCheck u = some (.underlayInvalidASN u.name) := by
        rw [underlayCheck, if_pos hasn]
      have hres : ValidateUnderlays [u] =
          (some (.underlayInvalidASN u.name), [.failure .underlay u.name]) := by
        rw [ValidateUnderlays, if_neg (by simp)]
        rw [validateUnderlaysLoop, hchk]
      rw [hres]
      exact ⟨rfl, fun _ => rfl⟩
    | cons y rest2 =>
      have hres : ValidateUnderlays (x :: y :: rest2) = (some .tooManyUnderlays, []) := by
        rw [ValidateUnderlays, if_pos (by simp [List.length_cons])]
      rw [hres]
      refine ⟨rfl, fun hlen => ?_⟩
      exfalso
      simp only [List.length_cons] at hlen
      omega

/-! ### Claim C2 (corrected): report/error pairing -/

/-- The failure report emitted along a validation error names the resource the
error blames: the resource whose name is embedded in the error (for host
sessions, via the "Kind name" display string). `tooManyUnderlays` has no
matching report — it is the unreported branch. -/
def reportMatchesErr (e : ValidationError) (r : ReportEvent) : Prop :=
  match e, r with
  | .underlayInvalidASN n, .failure .underlay m => n = m
  | .underlayAsnEqNeighbor n _, .failure .underlay m => n = m
  | .underlayInvalidVtep n _, .failure .underlay m => n = m
  | .underlayTooManyNics n _, .failure .underlay m => n = m
  | .underlayInvalidNic n _, .failure .underlay m => n = m
  | .invalidVrfName n _, .failure _ m => n = m
  | .duplicateVrf _ _ cur, .failure _ m => cur = m
  | .duplicateVniNumber _ _ cur, .failure _ m => cur = m
  | .invalidHostMasterName n _, .failure .l2vni m => n = m
  | .invalidL2GatewayIPs n _, .failure .l2vni m => n = m
  | .hostAsnEqualsAsn who _, .failure k m => who = k.str ++ " " ++ m
  | .invalidLocalCIDR who _, .failure k m => who = k.str ++ " " ++ m
  | .cidrOverlapCheck _, .failure _ _ => True
  | .overlappingCidrs _ _ _ who2, .failure k m => who2 = k.str ++ " " ++ m
  | .missingLocalCIDR who, .failure k m => who = k.str ++ " " ++ m
  | _, _ => False

theorem underlayNicsCheck_matches {u : Underlay} {e : ValidationError}
    (h : underlayNicsCheck u = some e) :
    reportMatchesErr e (.failure .underlay u.name) := by
  rw [underlayNicsCheck] at h
  split at h
  · simp at h; subst h; exact rfl
  · split at h
    · simp at h; subst h; exact rfl
    · cases h

theorem underlayCheck_matches {u : Underlay} {e : ValidationError}
    (h : underlayCheck u = some e) :
    reportMatchesErr e (.failure .underlay u.name) := by
  rw [underlayCheck] at h
  split at h
  · simp at h; subst h; exact rfl
  · split at h
    · simp at h; subst h; exact rfl
    · split at h
      · split at h
        · simp at h; subst h; exact rfl
        · exact underlayNicsCheck_matches h
      · exact underlayNicsCheck_matches h

theorem validateUnderlaysLoop_report {us : List Underlay} {e : ValidationError}
    (h : (validateUnderlaysLoop us).1 = some e) :
    ∃ r, (validateUnderlaysLoop us).2 = [r] ∧ reportMatchesErr e r := by
  induction us with
  | nil => simp [validateUnderlaysLoop] at h
  | cons u rest ih =>
    rw [validateUnderlaysLoop] at h ⊢
    cases hchk : underlayCheck u with
    | some e' =>
      simp only [hchk] at h ⊢
      simp at h
      subst h
      exact ⟨_, rfl, underlayCheck_matches hchk⟩
    | none =>
      simp only [hchk] at h ⊢
      exact ih h

theorem validateVNIs_report {kind : ResourceKind} {l : List VniRec}
    {vrfs : List (String × String)} {vnis : List (Nat × String)} {e : ValidationError}
    (h : (validateVNIs kind l vrfs vnis).1 = some e) :
    ∃ r, (validateVNIs kind l vrfs vnis).2 = [r] ∧ reportMatchesErr e r := by
  induction l generalizing vrfs vnis with
  | nil => simp [validateVNIs] at h
  | cons v rest ih =>
    rw [validateVNIs] at h ⊢
    cases hname : isValidInterfaceName v.vrfName with
    | false =>
      simp only [hname, Bool.not_false, if_true] at h ⊢
      simp at h; subst h
      exact ⟨_, rfl, rfl⟩
    | true =>
      simp only [hname, Bool.not_true, Bool.false_eq_true, if_false] at h ⊢
      cases hvrf : lookupAssoc vrfs v.vrfName with
      | some existing =>
        simp only [hvrf] at h ⊢
        simp at h; subst h
        exact ⟨_, rfl, rfl⟩
      | none =>
        simp only [hvrf] at h ⊢
        cases hvni : lookupAssocNat vnis v.vni with
        | some existing =>
          simp only [hvni] at h ⊢
          simp at h; subst h
          exact ⟨_, rfl, rfl⟩
        | none =>
          simp only [hvni] at h ⊢
          exact ih h

theorem validateVNIs_none_reports {kind : ResourceKind} {l : List VniRec}
    {vrfs : List (String × String)} {vnis : List (Nat × String)}
    (h : (validateVNIs kind l vrfs vnis).1 = none) :
    (validateVNIs kind l vrfs vnis).2 = [] := by
  induction l generalizing vrfs vnis with
  | nil => rfl
  | cons v rest ih =>
    rw [validateVNIs] at h ⊢
    cases hname : isValidInterfaceName v.vrfName with
    | false => simp only [hname, Bool.not_false, if_true] at h; cases h
    | true =>
      simp only [hname, Bool.not_true, Bool.false_eq_true, if_false] at h ⊢
      cases hvrf : lookupAssoc vrfs v.vrfName with
      | some existing => simp only [hvrf] at h; cases h
      | none =>
        simp only [hvrf] at h ⊢
        cases hvni : lookupAssocNat vnis v.vni with
        | some existing => simp only [hvni] at h; cases h
        | none =>
          simp only [hvni] at h ⊢
          exact ih h

theorem l2GatewayCheck_matches {v : L2VNI} {e : ValidationError}
    (h : l2GatewayCheck v = some e) :
    reportMatchesErr e (.failure .l2vni v.name) := by
  rw [l2GatewayCheck] at h
  split at h
  · simp at h; subst h; exact rfl
  · cases h

theorem l2vniSpecificCheck_matches {v : L2VNI} {e : ValidationError}
    (h : l2vniSpecificCheck v = some e) :
    reportMatchesErr e (.failure .l2vni v.name) := by
  rw [l2vniSpecificCheck] at h
  split at h
  · split at h
    · simp at h; subst h; exact rfl
    · exact l2GatewayCheck_matches h
  · exact l2GatewayCheck_matches h

theorem validateL2SpecificLoop_report {l : List L2VNI} {e : ValidationError}
    (h : (validateL2SpecificLoop l).1 = some e) :
    ∃ r, (validateL2SpecificLoop l).2 = [r] ∧ reportMatchesErr e r := by
  induction l with
  | nil => simp [validateL2SpecificLoop] at h
  | cons v rest ih =>
    rw [validateL2SpecificLoop] at h ⊢
    cases hchk : l2vniSpecificCheck v with
    | some e' =>
      simp only [hchk] at h ⊢
      simp at h; subst h
      exact ⟨_, rfl, l2vniSpecificCheck_matches hchk⟩
    | none =>
      simp only [hchk] at h ⊢
      exact ih h

theorem scanOverlap_matches {cidr : String} {s : HostSessionInfo}
    {existing : List (String × String)} {e : ValidationError}
    (h : scanOverlap cidr s.fullName existing = some e) :
    reportMatchesErr e (.failure s.kind s.resourceName) := by
  induction existing with
  | nil => simp [scanOverlap] at h
  | cons p rest ih =>
    rcases p with ⟨ex, exWho⟩
    rw [scanOverlap] at h
    cases hc : cidrsOverlap ex cidr with
    | error msg =>
      simp only [hc] at h
      simp at h; subst h; exact trivial
    | ok b =>
      cases b with
      | true =>
        simp only [hc] at h
        simp at h; subst h
        exact rfl
      | false =>
        simp only [hc] at h
        exact ih h

theorem validateCIDRGo_matches {s : HostSessionInfo} {cidr : String}
    {existing : List (String × String)} {e : ValidationError}
    (h : validateCIDRGo s cidr existing = some e) :
    reportMatchesErr e (.failure s.kind s.resourceName) := by
  rw [validateCIDRGo] at h
  split at h
  · simp at h; subst h; exact rfl
  · exact scanOverlap_matches h

theorem validateHostSessionsLoop_report {l : List HostSessionInfo}
    {v4s v6s : List (String × String)} {e : ValidationError}
    (h : (validateHostSessionsLoop l v4s v6s).1 = some e) :
    ∃ r, (validateHostSessionsLoop l v4s v6s).2 = [r] ∧ reportMatchesErr e r := by
  induction l generalizing v4s v6s with
  | nil => simp [validateHostSessionsLoop] at h
  | cons s rest ih =>
    rw [validateHostSessionsLoop] at h ⊢
    cases hasn : (s.session.HostASN == s.session.ASN) with
    | true =>
      simp only [hasn, if_true] at h ⊢
      simp at h; subst h
      exact ⟨_, rfl, rfl⟩
    | false =>
      simp only [hasn, Bool.false_eq_true, if_false] at h ⊢
      cases h4 : (if s.session.LocalCIDR.IPv4 ≠ "" then
          validateCIDRGo s s.session.LocalCIDR.IPv4 v4s else none) with
      | some e4 =>
        simp only [h4] at h ⊢
        simp at h; subst h
        refine ⟨_, rfl, ?_⟩
        by_cases hne : s.session.LocalCIDR.IPv4 ≠ ""
        · rw [if_pos hne] at h4; exact validateCIDRGo_matches h4
        · rw [if_neg hne] at h4; cases h4
      | none =>
        simp only [h4] at h ⊢
        cases h6 : (if s.session.LocalCIDR.IPv6 ≠ "" then
            validateCIDRGo s s.session.LocalCIDR.IPv6 v6s else none) with
        | some e6 =>
          simp only [h6] at h ⊢
          simp at h; subst h
          refine ⟨_, rfl, ?_⟩
          by_cases hne : s.session.LocalCIDR.IPv6 ≠ ""
          · rw [if_pos hne] at h6; exact validateCIDRGo_matches h6
          · rw [if_neg hne] at h6; cases h6
        | none =>
          simp only [h6] at h ⊢
          by_cases hboth :
              (decide (s.session.LocalCIDR.IPv4 = "") &&
               decide (s.session.LocalCIDR.IPv6 = "")) = true
          · rw [if_pos hboth] at h ⊢
            simp at h; subst h
            exact ⟨_, rfl, rfl⟩
          · rw [if_neg hboth] at h ⊢
            exact ih h

theorem ValidateL2VNIs_common_err {l2 : List L2VNI} {e : ValidationError}
    (h : (validateVNIs .l2vni (vnisFromL2VNIs l2) [] []).1 = some e) :
    ValidateL2VNIs l2 = validateVNIs .l2vni (vnisFromL2VNIs l2) [] [] := by
  rw [ValidateL2VNIs]
  rcases hm : validateVNIs .l2vni (vnisFromL2VNIs l2) [] [] with ⟨eo, rs⟩
  rw [hm] at h
  simp only at h
  subst h
  rfl

theorem ValidateL2VNIs_common_ok {l2 : List L2VNI}
    (h : (validateVNIs .l2vni (vnisFromL2VNIs l2) [] []).1 = none) :
    ValidateL2VNIs l2 =
      ((validateL2SpecificLoop l2).1,
        (validateVNIs .l2vni (vnisFromL2VNIs l2) [] []).2 ++ (validateL2SpecificLoop l2).2) := by
  rw [ValidateL2VNIs]
  rcases hm : validateVNIs .l2vni (vnisFromL2VNIs l2) [] [] with ⟨eo, rs⟩
  rw [hm] at h
  simp only at h
  subst h
  rcases hs : validateL2SpecificLoop l2 with ⟨eo2, rs2⟩
  rfl

/-- C2 counterexample: with two (individually valid) underlays declared,
`ValidateUnderlays` returns the "more than one underlay" error without calling
`ReportResourceFailure` at all — a validation error with zero failure
reports, refuting the claim as stated. -/
theorem c2_counterexample :
    (ValidateUnderlays [{ name := "u1", ASN := 64514 },
                        { name := "u2", ASN := 64515 }]).1 = some .tooManyUnderlays
    ∧ (ValidateUnderlays [{ name := "u1", ASN := 64514 },
                          { name := "u2", ASN := 64515 }]).2 = [] := ⟨rfl, rfl⟩

/-- C2 amended: with the sole exception of the more-than-one-underlay check
(which returns its error without any report), every validation error of
`ValidateUnderlays`, `ValidateL3VNIs`, `ValidateL2VNIs` and
`ValidateHostSessions` is accompanied by exactly one `ReportResourceFailure`
call, and that report names the offending resource embedded in the error. -/
theorem c2_error_reporting (us : List Underlay) (l3 : List L3VNI) (l2 : List L2VNI)
    (pts : List L3Passthrough) :
    (∀ e, us.length ≤ 1 → (ValidateUnderlays us).1 = some e →
      ∃ r, (ValidateUnderlays us).2 = [r] ∧ reportMatchesErr e r)
    ∧ (∀ e, (ValidateL3VNIs l3).1 = some e →
      ∃ r, (ValidateL3VNIs l3).2 = [r] ∧ reportMatchesErr e r)
    ∧ (∀ e, (ValidateL2VNIs l2).1 = some e →
      ∃ r, (ValidateL2VNIs l2).2 = [r] ∧ reportMatchesErr e r)
    ∧ (∀ e, (ValidateHostSessions l3 pts).1 = some e →
      ∃ r, (ValidateHostSessions l3 pts).2 = [r] ∧ reportMatchesErr e r) := by
  refine ⟨?_, ?_, ?_, ?_⟩
  · intro e hlen h
    have hres : ValidateUnderlays us = validateUnderlaysLoop us := by
      rw [ValidateUnderlays, if_neg (by omega)]
    rw [hres] at h ⊢
    exact validateUnderlaysLoop_report h
  · intro e h
    exact validateVNIs_report h
  · intro e h
    cases hc : (validateVNIs .l2vni (vnisFromL2VNIs l2) [] []).1 with
    | some e' =>
      rw [ValidateL2VNIs_common_err hc] at h ⊢
      exact validateVNIs_report h
    | none =>
      rw [ValidateL2VNIs_common_ok hc] at h ⊢
      simp only at h ⊢
      rw [validateVNIs_none_reports hc]
      rw [List.nil_append]
      exact validateL2SpecificLoop_report h
  · intro e h
    exact validateHostSessionsLoop_report h

/-- Witness for C2 at concrete inputs: a duplicate-VRF pair of L3VNIs yields
the duplicate-vrf error and exactly one failure report naming the second
L3VNI. -/
theorem c2_witness :
    ∃ r, (ValidateL3VNIs [{ name := "a", VNI := 1, VRF := "red" },
                          { name := "b", VNI := 2, VRF := "red" }]).2 = [r]
      ∧ reportMatchesErr (.duplicateVrf "red" "a" "b") r :=
  (c2_error_reporting [] [{ name := "a", VNI := 1, VRF := "red" },
                          { name := "b", VNI := 2, VRF := "red" }] [] []).2.1
    (.duplicateVrf "red" "a" "b") (by decide)

/-! ### Claim C1 (corrected): VNI/VRF uniqueness is per kind, not combined -/

theorem lookupAssoc_cons_none {p : String × String} {m : List (String × String)} {k : String}
    (h : lookupAssoc (p :: m) k = none) : (p.1 == k) = false ∧ lookupAssoc m k = none := by
  cases hp : (p.1 == k) with
  | true =>
    rw [lookupAssoc] at h
    simp [List.find?, hp] at h
  | false =>
    refine ⟨rfl, ?_⟩
    rw [lookupAssoc] at h ⊢
    simp only [List.find?, hp] at h
    exact h

theorem lookupAssocNat_cons_none {p : Nat × String} {m : List (Nat × String)} {k : Nat}
    (h : lookupAssocNat (p :: m) k = none) : (p.1 == k) = false ∧ lookupAssocNat m k = none := by
  cases hp : (p.1 == k) with
  | true =>
    rw [lookupAssocNat] at h
    simp [List.find?, hp] at h
  | false =>
    refine ⟨rfl, ?_⟩
    rw [lookupAssocNat] at h ⊢
    simp only [List.find?, hp] at h
    exact h

theorem lookupAssoc_cons_some {p : String × String} {m : List (String × String)} {k : String}
    (h : (lookupAssoc (p :: m) k).isSome = true) :
    p.1 = k ∨ (lookupAssoc m k).isSome = true := by
  cases hp : (p.1 == k) with
  | true => exact Or.inl (by simpa using hp)
  | false =>
    refine Or.inr ?_
    rw [lookupAssoc] at h ⊢
    simp only [List.find?, hp] at h
    exact h

theorem lookupAssocNat_cons_some {p : Nat × String} {m : List (Nat × String)} {k : Nat}
    (h : (lookupAssocNat (p :: m) k).isSome = true) :
    p.1 = k ∨ (lookupAssocNat m k).isSome = true := by
  cases hp : (p.1 == k) with
  | true => exact Or.inl (by simpa using hp)
  | false =>
    refine Or.inr ?_
    rw [lookupAssocNat] at h ⊢
    simp only [List.find?, hp] at h
    exact h

/-- When `validateVNIs` accepts, the processed records avoid the uniqueness
maps entirely and are pairwise distinct in both VRF name and VNI number. -/
theorem validateVNIs_none_nodup (kind : ResourceKind) (l : List VniRec)
    (vrfs : List (String × String)) (vnis : List (Nat × String))
    (h : (validateVNIs kind l vrfs vnis).1 = none) :
    (∀ v ∈ l, lookupAssoc vrfs v.vrfName = none ∧ lookupAssocNat vnis v.vni = none)
    ∧ l.Pairwise (fun a b => a.vrfName ≠ b.vrfName ∧ a.vni ≠ b.vni) := by
  induction l generalizing vrfs vnis with
  | nil => exact ⟨by simp, List.Pairwise.nil⟩
  | cons v rest ih =>
    rw [validateVNIs] at h
    cases hname : isValidInterfaceName v.vrfName with
    | false => simp only [hname, Bool.not_false, if_true] at h; cases h
    | true =>
      simp only [hname, Bool.not_true, Bool.false_eq_true, if_false] at h
      cases hvrf : lookupAssoc vrfs v.vrfName with
      | some ex => simp only [hvrf] at h; cases h
      | none =>
        simp only [hvrf] at h
        cases hvni : lookupAssocNat vnis v.vni with
        | some ex => simp only [hvni] at h; cases h
        | none =>
          simp only [hvni] at h
          have step := ih ((v.vrfName, v.name) :: vrfs) ((v.vni, v.name) :: vnis) h
          refine ⟨?_, ?_⟩
          · intro w hw
            cases hw with
            | head => exact ⟨hvrf, hvni⟩
            | tail _ hw =>
              obtain ⟨h1, h2⟩ := step.1 w hw
              exact ⟨(lookupAssoc_cons_none h1).2, (lookupAssocNat_cons_none h2).2⟩
          · refine List.Pairwise.cons ?_ step.2
            intro w hw
            obtain ⟨h1, h2⟩ := step.1 w hw
            have hne1 := (lookupAssoc_cons_none h1).1
            have hne2 := (lookupAssocNat_cons_none h2).1
            constructor
            · intro hEq; rw [hEq] at hne1; simp at hne1
            · intro hEq; rw [hEq] at hne2; simp at hne2

/-- When `validateVNIs` rejects a list of records with valid VRF names, the
single failure report names a record that duplicates either a map entry or an
earlier record of the same list. -/
theorem validateVNIs_err_structure (kind : ResourceKind) (l : List VniRec)
    (vrfs : List (String × String)) (vnis : List (Nat × String))
    (hvalid : ∀ w ∈ l, isValidInterfaceName w.vrfName = true)
    (herr : (validateVNIs kind l vrfs vnis).1.isSome = true) :
    ∃ v ∈ l, (validateVNIs kind l vrfs vnis).2 = [.failure kind v.name]
      ∧ ((lookupAssoc vrfs v.vrfName).isSome = true
         ∨ (lookupAssocNat vnis v.vni).isSome = true
         ∨ ∃ u, [u, v].Sublist l ∧ (u.vrfName = v.vrfName ∨ u.vni = v.vni)) := by
  induction l generalizing vrfs vnis with
  | nil => simp [validateVNIs] at herr
  | cons v rest ih =>
    have hname : isValidInterfaceName v.vrfName = true := hvalid v (List.mem_cons_self _ _)
    rw [validateVNIs] at herr ⊢
    simp only [hname, Bool.not_true, Bool.false_eq_true, if_false] at herr ⊢
    cases hvrf : lookupAssoc vrfs v.vrfName with
    | some ex =>
      simp only [hvrf] at herr ⊢
      exact ⟨v, List.mem_cons_self _ _, rfl, Or.inl (by rw [hvrf]; rfl)⟩
    | none =>
      simp only [hvrf] at herr ⊢
      cases hvni : lookupAssocNat vnis v.vni with
      | some ex =>
        simp only [hvni] at herr ⊢
        exact ⟨v, List.mem_cons_self _ _, rfl, Or.inr (Or.inl (by rw [hvni]; rfl))⟩
      | none =>
        simp only [hvni] at herr ⊢
        obtain ⟨w, hwmem, hrep, hdisj⟩ :=
          ih ((v.vrfName, v.name) :: vrfs) ((v.vni, v.name) :: vnis)
            (fun x hx => hvalid x (List.mem_cons_of_mem _ hx)) herr
        refine ⟨w, List.mem_cons_of_mem _ hwmem, hrep, ?_⟩
        rcases hdisj with h1 | h2 | ⟨u, hsub, hclash⟩
        · rcases lookupAssoc_cons_some h1 with heq | hold
          · exact Or.inr (Or.inr ⟨v, (List.singleton_sublist.mpr hwmem).cons₂ v,
              Or.inl heq⟩)
          · exact Or.inl hold
        · rcases lookupAssocNat_cons_some h2 with heq | hold
          · exact Or.inr (Or.inr ⟨v, (List.singleton_sublist.mpr hwmem).cons₂ v,
              Or.inr heq⟩)
          · exact Or.inr (Or.inl hold)
        · exact Or.inr (Or.inr ⟨u, hsub.cons v, hclash⟩)

/-- C1 counterexample: an L3VNI and an L2VNI sharing both the VNI number 100
and the VRF name "red" — a combined set with cross-kind duplicates — pass
`ValidateL3VNIs` and `ValidateL2VNIs` with no error and no failure report:
the two calls use separate fresh uniqueness maps, so duplicates are detected
only within each kind. -/
theorem c1_counterexample :
    ((ValidateL3VNIs [{ name := "a", VNI := 100, VRF := "red" }]).1 = none
      ∧ (ValidateL3VNIs [{ name := "a", VNI := 100, VRF := "red" }]).2 = [])
    ∧ ((ValidateL2VNIs [{ name := "b", VNI := 100, VRF := some "red" }]).1 = none
      ∧ (ValidateL2VNIs [{ name := "b", VNI := 100, VRF := some "red" }]).2 = [])
    ∧ L2VNI.VRFName { name := "b", VNI := 100, VRF := some "red" } = "red" := by
  refine ⟨⟨rfl, rfl⟩, ⟨rfl, rfl⟩, rfl⟩

/-- C1 amended: duplicate VNI numbers or VRF names are detected within each
kind separately: whenever two records of the same kind share a VNI number or
VRF name, that kind's validation call returns an error, and (when the VRF
names are valid interface names, so no name error preempts the scan) the
single recorded failure names the later-processed record of a violating
pair. Duplicates across the two kinds are not detected. -/
theorem c1_same_kind_duplicates (l3 : List L3VNI) (l2 : List L2VNI) :
    ((∃ u v, [u, v].Sublist (vnisFromL3VNIs l3) ∧ (u.vrfName = v.vrfName ∨ u.vni = v.vni)) →
      (ValidateL3VNIs l3).1.isSome = true
      ∧ ((∀ w ∈ vnisFromL3VNIs l3, isValidInterfaceName w.vrfName = true) →
          ∃ u v, [u, v].Sublist (vnisFromL3VNIs l3) ∧ (u.vrfName = v.vrfName ∨ u.vni = v.vni)
            ∧ (ValidateL3VNIs l3).2 = [.failure .l3vni v.name]))
    ∧ ((∃ u v, [u, v].Sublist (vnisFromL2VNIs l2) ∧ (u.vrfName = v.vrfName ∨ u.vni = v.vni)) →
      (ValidateL2VNIs l2).1.isSome = true
      ∧ ((∀ w ∈ vnisFromL2VNIs l2, isValidInterfaceName w.vrfName = true) →
          ∃ u v, [u, v].Sublist (vnisFromL2VNIs l2) ∧ (u.vrfName = v.vrfName ∨ u.vni = v.vni)
            ∧ (ValidateL2VNIs l2).2 = [.failure .l2vni v.name])) := by
  have key : ∀ (kind : ResourceKind) (recs : List VniRec),
      (∃ u v, [u, v].Sublist recs ∧ (u.vrfName = v.vrfName ∨ u.vni = v.vni)) →
      (validateVNIs kind recs [] []).1.isSome = true := by
    intro kind recs ⟨u, v, hsub, hclash⟩
    by_contra hno
    rw [Bool.not_eq_true] at hno
    have hnone : (validateVNIs kind recs [] []).1 = none := by
      cases hv : (validateVNIs kind recs [] []).1 with
      | none => rfl
      | some x => rw [hv] at hno; cases hno
    have hpw := (validateVNIs_none_nodup kind recs [] [] hnone).2
    have hp2 := hpw.sublist hsub
    have hrel := (List.pairwise_cons.mp hp2).1 v (List.mem_singleton.mpr rfl)
    rcases hclash with hc | hc
    · exact hrel.1 hc
    · exact hrel.2 hc
  have keyrep : ∀ (kind : ResourceKind) (recs : List VniRec),
      (∀ w ∈ recs, isValidInterfaceName w.vrfName = true) →
      (validateVNIs kind recs [] []).1.isSome = true →
      ∃ u v, [u, v].Sublist recs ∧ (u.vrfName = v.vrfName ∨ u.vni = v.vni)
        ∧ (validateVNIs kind recs [] []).2 = [.failure kind v.name] := by
    intro kind recs hvalid herr
    obtain ⟨v, hvmem, hrep, hdisj⟩ := validateVNIs_err_structure kind recs [] [] hvalid herr
    rcases hdisj with h1 | h2 | ⟨u, hsub, hclash⟩
    · simp [lookupAssoc, List.find?] at h1
    · simp [lookupAssocNat, List.find?] at h2
    · exact ⟨u, v, hsub, hclash, hrep⟩
  constructor
  · intro hdup
    have herr := key .l3vni (vnisFromL3VNIs l3) hdup
    exact ⟨herr, fun hvalid => keyrep .l3vni (vnisFromL3VNIs l3) hvalid herr⟩
  · intro hdup
    have herr := key .l2vni (vnisFromL2VNIs l2) hdup
    have heq : ValidateL2VNIs l2 = validateVNIs .l2vni (vnisFromL2VNIs l2) [] [] := by
      obtain ⟨e, he⟩ := Option.isSome_iff_exists.mp herr
      exact ValidateL2VNIs_common_err he
    rw [heq]
    exact ⟨herr, fun hvalid => keyrep .l2vni (vnisFromL2VNIs l2) hvalid herr⟩

/-- Witness for C1 (amended) at a concrete input: two L3VNIs sharing VRF
"red" fail validation and the failure is recorded for the second one. -/
theorem c1_witness :
    (ValidateL3VNIs [{ name := "a", VNI := 1, VRF := "red" },
                     { name := "b", VNI := 2, VRF := "red" }]).1.isSome = true :=
  ((c1_same_kind_duplicates [{ name := "a", VNI := 1, VRF := "red" },
                             { name := "b", VNI := 2, VRF := "red" }] []).1
    ⟨{ name := "a", vni := 1, vrfName := "red" }, { name := "b", vni := 2, vrfName := "red" },
      by decide, Or.inl rfl⟩).1

/-! ### Claim C4 (corrected): effects of a successful configureInterfaces -/

theorem andThen_ok {a b : StepRes} (h : (a.andThen b).err = none) :
    a.err = none ∧ b.err = none ∧ (a.andThen b).calls = a.calls ++ b.calls := by
  cases ha : a.err with
  | some x => rw [andThen_err_some a b x ha] at h; cases h
  | none =>
    refine ⟨rfl, ?_, ?_⟩
    · rw [← andThen_err_none a b ha]; exact h
    · rw [StepRes.andThen, ha]

theorem removeVNIsStep_calls (env : HostEnv) (hc : HostConfig) :
    (removeVNIsStep env hc).calls =
      [.removeNonConfiguredVNIs (hc.hostL3VNIs.map (fun v => v.VNI) ++
        hc.hostL2VNIs.map (fun v => v.VNI))] := by
  rw [removeVNIsStep]
  cases env.removeVNIsResult <;> rfl

theorem removePassthroughStep_calls (env : HostEnv) (api : ApiConfigData)
    (hp : api.L3Passthrough = []) :
    (removePassthroughStep env api).calls = [.removePassthrough] := by
  rw [removePassthroughStep, hp]
  have hc : (([] : List L3Passthrough).length == 0) = true := rfl
  rw [if_pos hc]
  cases env.removePassthroughResult <;> rfl

/-- C4 counterexample: with zero declared Underlays (and no underlay present
on the host), `configureInterfaces` succeeds immediately after the underlay
check: IPv6 forwarding is not ensured, no stale-VNI removal and no
passthrough removal happen, even though an L3VNI is declared (so the desired
set is non-trivial) and no passthrough is declared. -/
theorem c4_counterexample :
    (configureInterfaces { hasUnderlayResult := .ok false }
      { L3VNIs := [{ name := "a", VNI := 100, VRF := "red" }] }).err = none
    ∧ (configureInterfaces { hasUnderlayResult := .ok false }
      { L3VNIs := [{ name := "a", VNI := 100, VRF := "red" }] }).calls =
        [.hasUnderlayInterface] := ⟨rfl, rfl⟩

/-- C4 amended: when at least one Underlay is declared, every successful
`configureInterfaces` pass has ensured IPv6 forwarding, has asked the host
layer to remove every previously-configured VNI not in the desired
L3VNI+L2VNI set, and — when no L3Passthrough is declared — has removed the
passthrough configuration. When no Underlay is declared (and none is present
on the host), the function returns nil after the underlay check without
performing any host configuration. -/
theorem configureInterfaces_no_underlay (env : HostEnv) (api : ApiConfigData) (b : Bool)
    (henv : env.hasUnderlayResult = .ok b) (hU : api.Underlays = []) :
    configureInterfaces env api =
      if b then
        { err := some .underlayRemoved, calls := [.hasUnderlayInterface], reports := [] }
      else { err := none, calls := [.hasUnderlayInterface], reports := [] } := by
  rw [configureInterfaces, henv]
  have hlen : (api.Underlays.length == 0) = true := by rw [hU]; rfl
  cases b with
  | true => simp [hlen]
  | false => simp [hlen]

theorem configureInterfaces_main (env : HostEnv) (api : ApiConfigData) (b : Bool)
    (henv : env.hasUnderlayResult = .ok b) (hlen : (api.Underlays.length == 0) = false) :
    configureInterfaces env api =
      ({ err := none, calls := [.hasUnderlayInterface], reports := [] } : StepRes).andThen
        ((ensureIPv6Step env).andThen
          ((underlayStep env api).andThen
            ((setupL3VNIsLoop env (APItoHostConfig api).hostL3VNIs api.L3VNIs).andThen
              ((setupL2VNIsLoop env (APItoHostConfig api).hostL2VNIs api.L2VNIs).andThen
                ((passthroughStep env api).andThen
                  ((removeVNIsStep env (APItoHostConfig api)).andThen
                    (removePassthroughStep env api))))))) := by
  rw [configureInterfaces, henv]
  simp [hlen]

theorem c4_success_effects (env : HostEnv) (api : ApiConfigData)
    (hok : (configureInterfaces env api).err = none) :
    (api.Underlays = [] → (configureInterfaces env api).calls = [.hasUnderlayInterface])
    ∧ (api.Underlays ≠ [] →
        HostCall.ensureIPv6Forwarding ∈ (configureInterfaces env api).calls
        ∧ HostCall.removeNonConfiguredVNIs (api.L3VNIs.map (fun v => v.VNI) ++
            api.L2VNIs.map (fun v => v.VNI)) ∈ (configureInterfaces env api).calls
        ∧ (api.L3Passthrough = [] →
            HostCall.removePassthrough ∈ (configureInterfaces env api).calls)) := by
  cases henv : env.hasUnderlayResult with
  | error e =>
    rw [configureInterfaces, henv] at hok
    cases hok
  | ok hasAlready =>
    by_cases hU : api.Underlays = []
    · have heq := configureInterfaces_no_underlay env api hasAlready henv hU
      cases hasAlready with
      | true => rw [heq] at hok; simp at hok
      | false =>
        rw [heq]
        exact ⟨fun _ => rfl, fun habs => absurd hU habs⟩
    · have hlen : (api.Underlays.length == 0) = false := by
        cases hul : api.Underlays with
        | nil => exact absurd hul hU
        | cons x rest => rfl
      have heq := configureInterfaces_main env api hasAlready henv hlen
      rw [heq] at hok ⊢
      refine ⟨fun habs => absurd habs hU, fun _ => ?_⟩
      obtain ⟨-, h1, hc1⟩ := andThen_ok hok
      rw [hc1]
      obtain ⟨h2, h3, hc2⟩ := andThen_ok h1
      rw [hc2]
      obtain ⟨-, h4, hc3⟩ := andThen_ok h3
      rw [hc3]
      obtain ⟨-, h5, hc4⟩ := andThen_ok h4
      rw [hc4]
      obtain ⟨-, h6, hc5⟩ := andThen_ok h5
      rw [hc5]
      obtain ⟨-, h7, hc6⟩ := andThen_ok h6
      rw [hc6]
      obtain ⟨-, h8, hc7⟩ := andThen_ok h7
      rw [hc7]
      have hipv6 : (ensureIPv6Step env).calls = [HostCall.ensureIPv6Forwarding] := by
        rw [ensureIPv6Step]
        cases env.ensureIPv6Result <;> rfl
      refine ⟨?_, ?_, ?_⟩
      · rw [hipv6]; simp
      · rw [removeVNIsStep_calls]
        have htc : (APItoHostConfig api).hostL3VNIs.map (fun v => v.VNI) ++
            (APItoHostConfig api).hostL2VNIs.map (fun v => v.VNI) =
            api.L3VNIs.map (fun v => v.VNI) ++ api.L2VNIs.map (fun v => v.VNI) := by
          rw [APItoHostConfig]
          simp only [List.map_map]
          rfl
        rw [htc]
        simp
      · intro hp
        rw [removePassthroughStep_calls env api hp]
        simp

/-- Witness for C4 (amended) at a concrete input: with one declared Underlay
and an all-success host environment, the successful pass ensured IPv6
forwarding. -/
theorem c4_witness :
    HostCall.ensureIPv6Forwarding ∈
      (configureInterfaces { hasUnderlayResult := .ok false }
        { Underlays := [{ name := "u", ASN := 64514 }] }).calls :=
  ((c4_success_effects { hasUnderlayResult := .ok false }
      { Underlays := [{ name := "u", ASN := 64514 }] } rfl).2 (by simp)).1

/-! ### Claim C6: pipeline order and abort-on-first-failure -/

/-- C6: `Reconcile` runs validation (Underlays, then L3VNIs, then L2VNIs, then
host sessions), then the FRR push, then host configuration; any validation
failure yields zero FRR-updater calls and zero host-network calls and returns
the (wrapped) error of the first failing validator in that order, and an FRR
failure yields zero host-network calls. -/
theorem c6_pipeline_order (env : HostEnv) (frrResult : Option GoErr) (api : ApiConfigData) :
    (((ValidateUnderlays api.Underlays).1.isSome = true
      ∨ (ValidateL3VNIs api.L3VNIs).1.isSome = true
      ∨ (ValidateL2VNIs api.L2VNIs).1.isSome = true
      ∨ (ValidateHostSessions api.L3VNIs api.L3Passthrough).1.isSome = true) →
        (Reconcile env frrResult api).frrCalls = []
        ∧ (Reconcile env frrResult api).hostCalls = []
        ∧ (Reconcile env frrResult api).err.isSome = true)
    ∧ (∀ e, (ValidateUnderlays api.Underlays).1 = some e →
        (Reconcile env frrResult api).err =
          some (.wrap "failed to validate underlays" (.validation e)))
    ∧ (∀ e, (ValidateUnderlays api.Underlays).1 = none →
        (ValidateL3VNIs api.L3VNIs).1 = some e →
        (Reconcile env frrResult api).err =
          some (.wrap "failed to validate l3vnis" (.validation e)))
    ∧ (∀ e, (ValidateUnderlays api.Underlays).1 = none →
        (ValidateL3VNIs api.L3VNIs).1 = none →
        (ValidateL2VNIs api.L2VNIs).1 = some e →
        (Reconcile env frrResult api).err =
          some (.wrap "failed to validate l2vnis" (.validation e)))
    ∧ (∀ e, (ValidateUnderlays api.Underlays).1 = none →
        (ValidateL3VNIs api.L3VNIs).1 = none →
        (ValidateL2VNIs api.L2VNIs).1 = none →
        (ValidateHostSessions api.L3VNIs api.L3Passthrough).1 = some e →
        (Reconcile env frrResult api).err =
          some (.wrap "failed to validate host sessions" (.validation e)))
    ∧ (∀ e, (ValidateUnderlays api.Underlays).1 = none →
        (ValidateL3VNIs api.L3VNIs).1 = none →
        (ValidateL2VNIs api.L2VNIs).1 = none →
        (ValidateHostSessions api.L3VNIs api.L3Passthrough).1 = none →
        frrResult = some e →
        (Reconcile env frrResult api).err = some (.wrap "failed to reload frr config" e)
        ∧ (Reconcile env frrResult api).frrCalls = [.applyConfig]
        ∧ (Reconcile env frrResult api).hostCalls = []) := by
  rw [Reconcile]
  rcases hu : ValidateUnderlays api.Underlays with ⟨ue, urs⟩
  cases ue with
  | some e0 =>
    refine ⟨fun _ => ⟨rfl, rfl, rfl⟩, fun e he => ?_, fun e he hc1 => ?_,
      fun e he hc1 hc2 => ?_, fun e he hc1 hc2 hc3 => ?_, fun e he hc1 hc2 hc3 hc4 => ?_⟩
    · have he' : e0 = e := by simpa using he
      subst he'
      rfl
    all_goals simp at he
  | none =>
    rcases h3 : ValidateL3VNIs api.L3VNIs with ⟨v3e, v3rs⟩
    cases v3e with
    | some e0 =>
      refine ⟨fun _ => ⟨rfl, rfl, rfl⟩, fun e he => ?_, fun e hc1 he => ?_,
        fun e hc1 he hc2 => ?_, fun e hc1 he hc2 hc3 => ?_, fun e hc1 he hc2 hc3 hc4 => ?_⟩
      · simp at he
      · have he' : e0 = e := by simpa using he
        subst he'
        rfl
      all_goals simp at he
    | none =>
      rcases h2 : ValidateL2VNIs api.L2VNIs with ⟨v2e, v2rs⟩
      cases v2e with
      | some e0 =>
        refine ⟨fun _ => ⟨rfl, rfl, rfl⟩, fun e he => ?_, fun e hc1 he => ?_,
          fun e hc1 hc2 he => ?_, fun e hc1 hc2 he hc3 => ?_, fun e hc1 hc2 he hc3 hc4 => ?_⟩
        · simp at he
        · simp at he
        · have he' : e0 = e := by simpa using he
          subst he'
          rfl
        all_goals simp at he
      | none =>
        rcases hh : ValidateHostSessions api.L3VNIs api.L3Passthrough with ⟨hhe, hhrs⟩
        cases hhe with
        | some e0 =>
          refine ⟨fun _ => ⟨rfl, rfl, rfl⟩, fun e he => ?_, fun e hc1 he => ?_,
            fun e hc1 hc2 he => ?_, fun e hc1 hc2 hc3 he => ?_,
            fun e hc1 hc2 hc3 he hc4 => ?_⟩
          · simp at he
          · simp at he
          · simp at he
          · have he' : e0 = e := by simpa using he
            subst he'
            rfl
          · simp at he
        | none =>
          cases hf : frrResult with
          | some fe =>
            refine ⟨fun hcontra => ?_, fun e he => ?_, fun e hc1 he => ?_,
              fun e hc1 hc2 he => ?_, fun e hc1 hc2 hc3 he => ?_,
              fun e hc1 hc2 hc3 hc4 he => ?_⟩
            · exfalso
              rcases hcontra with h | h | h | h <;> simp at h
            · simp at he
            · simp at he
            · simp at he
            · simp at he
            · have he' : fe = e := by simpa using he
              subst he'
              exact ⟨rfl, rfl, rfl⟩
          | none =>
            refine ⟨fun hcontra => ?_, fun e he => ?_, fun e hc1 he => ?_,
              fun e hc1 hc2 he => ?_, fun e hc1 hc2 hc3 he => ?_,
              fun e hc1 hc2 hc3 hc4 he => ?_⟩
            · exfalso
              rcases hcontra with h | h | h | h <;> simp at h
            · simp at he
            · simp at he
            · simp at he
            · simp at he
            · cases he

/-- Witness for C6 at the spec's scenario: two L3VNIs both declaring VRF
"red" produce a validation error before any FRR or host-network call. -/
theorem c6_witness :
    (Reconcile { hasUnderlayResult := .ok false } none
      { L3VNIs := [{ name := "a", VNI := 1, VRF := "red" },
                   { name := "b", VNI := 2, VRF := "red" }] }).frrCalls = []
    ∧ (Reconcile { hasUnderlayResult := .ok false } none
      { L3VNIs := [{ name := "a", VNI := 1, VRF := "red" },
                   { name := "b", VNI := 2, VRF := "red" }] }).hostCalls = []
    ∧ (Reconcile { hasUnderlayResult := .ok false } none
      { L3VNIs := [{ name := "a", VNI := 1, VRF := "red" },
                   { name := "b", VNI := 2, VRF := "red" }] }).err.isSome = true :=
  (c6_pipeline_order { hasUnderlayResult := .ok false } none
    { L3VNIs := [{ name := "a", VNI := 1, VRF := "red" },
                 { name := "b", VNI := 2, VRF := "red" }] }).1
    (Or.inr (Or.inl (by decide)))

/-! ### Claim C5: characterization of ValidateHostSessions -/

/-- Per-session conditions of the claim: distinct local/host ASNs, at least
one LocalCIDR field set, every non-empty field parseable. -/
def sessionLocalOk (s : HostSessionInfo) : Prop :=
  s.session.HostASN ≠ s.session.ASN
  ∧ (s.session.LocalCIDR.IPv4 ≠ "" ∨ s.session.LocalCIDR.IPv6 ≠ "")
  ∧ (s.session.LocalCIDR.IPv4 ≠ "" → (parseCIDR s.session.LocalCIDR.IPv4).isSome = true)
  ∧ (s.session.LocalCIDR.IPv6 ≠ "" → (parseCIDR s.session.LocalCIDR.IPv6).isSome = true)

/-- The non-empty IPv4-field CIDRs of the sessions, in processing order. -/
def v4cidrsOf (l : List HostSessionInfo) : List String :=
  l.filterMap (fun s =>
    if s.session.LocalCIDR.IPv4 ≠ "" then some s.session.LocalCIDR.IPv4 else none)

def v6cidrsOf (l : List HostSessionInfo) : List String :=
  l.filterMap (fun s =>
    if s.session.LocalCIDR.IPv6 ≠ "" then some s.session.LocalCIDR.IPv6 else none)

/-- The claim's acceptance condition over the collected session list: all
per-session conditions hold and the CIDRs of each family (field) are pairwise
non-overlapping; CIDRs of different families are never compared. -/
def goodHostSessions (l : List HostSessionInfo) : Prop :=
  (∀ s ∈ l, sessionLocalOk s)
  ∧ (v4cidrsOf l).Pairwise (fun a b => cidrsOverlap a b = .ok false)
  ∧ (v6cidrsOf l).Pairwise (fun a b => cidrsOverlap a b = .ok false)

/-- Scan invariant: each new CIDR, in order, overlaps neither the already
accepted ones (`acc`) nor any earlier new one. -/
def noNewOverlap (acc : List String) : List String → Prop
  | [] => True
  | c :: rest => (∀ a ∈ acc, cidrsOverlap a c = .ok false) ∧ noNewOverlap (acc ++ [c]) rest

theorem noNewOverlap_iff (l : List String) : ∀ acc : List String,
    noNewOverlap acc l ↔
      ((∀ a ∈ acc, ∀ c ∈ l, cidrsOverlap a c = .ok false)
       ∧ l.Pairwise (fun a b => cidrsOverlap a b = .ok false)) := by
  induction l with
  | nil => intro acc; simp [noNewOverlap]
  | cons c rest ih =>
    intro acc
    rw [noNewOverlap, ih]
    constructor
    · rintro ⟨h1, h2, h3⟩
      refine ⟨?_, ?_⟩
      · intro a ha d hd
        rcases List.mem_cons.mp hd with rfl | hd
        · exact h1 a ha
        · exact h2 a (List.mem_append_left _ ha) d hd
      · refine List.Pairwise.cons ?_ h3
        intro d hd
        exact h2 c (List.mem_append_right _ (List.mem_singleton.mpr rfl)) d hd
    · rintro ⟨h1, h2⟩
      rw [List.pairwise_cons] at h2
      refine ⟨fun a ha => h1 a ha c (List.mem_cons_self _ _), ?_, h2.2⟩
      intro a ha d hd
      rcases List.mem_append.mp ha with ha | ha
      · exact h1 a ha d (List.mem_cons_of_mem _ hd)
      · rw [List.mem_singleton] at ha
        subst ha
        exact h2.1 d hd

theorem scanOverlap_none_iff (cidr who : String) (existing : List (String × String)) :
    scanOverlap cidr who existing = none ↔
      ∀ p ∈ existing, cidrsOverlap p.1 cidr = .ok false := by
  induction existing with
  | nil => simp [scanOverlap]
  | cons p rest ih =>
    rcases p with ⟨ex, exWho⟩
    rw [scanOverlap]
    cases hc : cidrsOverlap ex cidr with
    | error msg =>
      constructor
      · intro h; cases h
      · intro h
        have hex := h (ex, exWho) (List.mem_cons_self _ _)
        rw [hc] at hex
        cases hex
    | ok b =>
      cases b with
      | true =>
        constructor
        · intro h; cases h
        · intro h
          have hex := h (ex, exWho) (List.mem_cons_self _ _)
          rw [hc] at hex
          simp at hex
      | false =>
        rw [ih]
        constructor
        · intro h p hp
          rcases List.mem_cons.mp hp with rfl | hp
          · exact hc
          · exact h p hp
        · intro h p hp
          exact h p (List.mem_cons_of_mem _ hp)

theorem validateCIDRGo_none_iff (s : HostSessionInfo) (cidr : String)
    (existing : List (String × String)) :
    validateCIDRGo s cidr existing = none ↔
      (isValidCIDR cidr = true ∧ ∀ p ∈ existing, cidrsOverlap p.1 cidr = .ok false) := by
  rw [validateCIDRGo]
  cases hv : isValidCIDR cidr with
  | false =>
    simp only [hv, Bool.not_false, if_true]
    constructor
    · intro h; cases h
    · rintro ⟨h, -⟩; cases h
  | true =>
    simp only [hv, Bool.not_true, Bool.false_eq_true, if_false]
    rw [scanOverlap_none_iff]
    simp

theorem v4cidrsOf_cons (s : HostSessionInfo) (rest : List HostSessionInfo) :
    v4cidrsOf (s :: rest) =
      if s.session.LocalCIDR.IPv4 ≠ "" then s.session.LocalCIDR.IPv4 :: v4cidrsOf rest
      else v4cidrsOf rest := by
  rw [v4cidrsOf, List.filterMap_cons]
  by_cases h : s.session.LocalCIDR.IPv4 ≠ ""
  · rw [if_pos h, if_pos h]; rfl
  · rw [if_neg h, if_neg h]; rfl

theorem v6cidrsOf_cons (s : HostSessionInfo) (rest : List HostSessionInfo) :
    v6cidrsOf (s :: rest) =
      if s.session.LocalCIDR.IPv6 ≠ "" then s.session.LocalCIDR.IPv6 :: v6cidrsOf rest
      else v6cidrsOf rest := by
  rw [v6cidrsOf, List.filterMap_cons]
  by_cases h : s.session.LocalCIDR.IPv6 ≠ ""
  · rw [if_pos h, if_pos h]; rfl
  · rw [if_neg h, if_neg h]; rfl

theorem isValidCIDR_parse {c : String} (h : isValidCIDR c = true) :
    (parseCIDR c).isSome = true := by
  rw [isValidCIDR] at h
  exact (Bool.and_eq_true_iff.mp h).2

theorem noNewOverlap_extend (c fn : String) (acc : List (String × String)) (tail : List String)
    (hov : ∀ p ∈ acc, cidrsOverlap p.1 c = .ok false) :
    noNewOverlap (acc.map Prod.fst) (c :: tail) ↔
      noNewOverlap ((acc ++ [(c, fn)]).map Prod.fst) tail := by
  rw [noNewOverlap, List.map_append]
  constructor
  · rintro ⟨-, h⟩; exact h
  · intro h
    refine ⟨?_, h⟩
    intro a ha
    obtain ⟨p, hp, rfl⟩ := List.mem_map.mp ha
    exact hov p hp

theorem validateHostSessionsLoop_none_iff (l : List HostSessionInfo) :
    ∀ v4s v6s : List (String × String),
    ((validateHostSessionsLoop l v4s v6s).1 = none ↔
      ((∀ s ∈ l, sessionLocalOk s)
       ∧ noNewOverlap (v4s.map Prod.fst) (v4cidrsOf l)
       ∧ noNewOverlap (v6s.map Prod.fst) (v6cidrsOf l))) := by
  induction l with
  | nil =>
    intro v4s v6s
    simp [validateHostSessionsLoop, v4cidrsOf, v6cidrsOf, noNewOverlap]
  | cons s rest ih =>
    intro v4s v6s
    rw [validateHostSessionsLoop]
    cases hasn : (s.session.HostASN == s.session.ASN) with
    | true =>
      simp only [hasn, if_true]
      constructor
      · intro h; cases h
      · rintro ⟨hloc, -, -⟩
        exact absurd (by simpa using hasn) ((hloc s (List.mem_cons_self _ _)).1)
    | false =>
      have hasnne : s.session.HostASN ≠ s.session.ASN := by simpa using hasn
      simp only [hasn, Bool.false_eq_true, if_false]
      cases h4 : (if s.session.LocalCIDR.IPv4 ≠ "" then
          validateCIDRGo s s.session.LocalCIDR.IPv4 v4s else none) with
      | some e4 =>
        simp only [h4]
        constructor
        · intro h; cases h
        · rintro ⟨hloc, hn4, -⟩
          by_cases hne : s.session.LocalCIDR.IPv4 ≠ ""
          · rw [if_pos hne] at h4
            have hlocs := hloc s (List.mem_cons_self _ _)
            have hparse := hlocs.2.2.1 hne
            have hvalid : isValidCIDR s.session.LocalCIDR.IPv4 = true := by
              rw [isValidCIDR, hparse]
              simp [hne]
            rw [v4cidrsOf_cons, if_pos hne, noNewOverlap] at hn4
            have hover : ∀ p ∈ v4s, cidrsOverlap p.1 s.session.LocalCIDR.IPv4 = .ok false := by
              intro p hp
              exact hn4.1 p.1 (List.mem_map.mpr ⟨p, hp, rfl⟩)
            have hnone := (validateCIDRGo_none_iff s _ v4s).mpr ⟨hvalid, hover⟩
            rw [hnone] at h4
            cases h4
          · rw [if_neg hne] at h4; cases h4
      | none =>
        simp only [h4]
        cases h6 : (if s.session.LocalCIDR.IPv6 ≠ "" then
            validateCIDRGo s s.session.LocalCIDR.IPv6 v6s else none) with
        | some e6 =>
          simp only [h6]
          constructor
          · intro h; cases h
          · rintro ⟨hloc, -, hn6⟩
            by_cases hne : s.session.LocalCIDR.IPv6 ≠ ""
            · rw [if_pos hne] at h6
              have hlocs := hloc s (List.mem_cons_self _ _)
              have hparse := hlocs.2.2.2 hne
              have hvalid : isValidCIDR s.session.LocalCIDR.IPv6 = true := by
                rw [isValidCIDR, hparse]
                simp [hne]
              rw [v6cidrsOf_cons, if_pos hne, noNewOverlap] at hn6
              have hover : ∀ p ∈ v6s, cidrsOverlap p.1 s.session.LocalCIDR.IPv6 = .ok false := by
                intro p hp
                exact hn6.1 p.1 (List.mem_map.mpr ⟨p, hp, rfl⟩)
              have hnone := (validateCIDRGo_none_iff s _ v6s).mpr ⟨hvalid, hover⟩
              rw [hnone] at h6
              cases h6
            · rw [if_neg hne] at h6; cases h6
        | none =>
          simp only [h6]
          by_cases hboth :
              (decide (s.session.LocalCIDR.IPv4 = "") &&
               decide (s.session.LocalCIDR.IPv6 = "")) = true
          · rw [if_pos hboth]
            have hb := Bool.and_eq_true_iff.mp hboth
            have h4e : s.session.LocalCIDR.IPv4 = "" := of_decide_eq_true hb.1
            have h6e : s.session.LocalCIDR.IPv6 = "" := of_decide_eq_true hb.2
            constructor
            · intro h; cases h
            · rintro ⟨hloc, -, -⟩
              exfalso
              rcases (hloc s (List.mem_cons_self _ _)).2.1 with hx | hx
              · exact hx h4e
              · exact hx h6e
          · rw [if_neg hboth]
            by_cases hne4 : s.session.LocalCIDR.IPv4 ≠ ""
            · rw [if_pos hne4] at h4 ⊢
              have hvc4 := (validateCIDRGo_none_iff s _ v4s).mp h4
              by_cases hne6 : s.session.LocalCIDR.IPv6 ≠ ""
              · rw [if_pos hne6] at h6 ⊢
                have hvc6 := (validateCIDRGo_none_iff s _ v6s).mp h6
                rw [ih (v4s ++ [(s.session.LocalCIDR.IPv4, s.fullName)])
                      (v6s ++ [(s.session.LocalCIDR.IPv6, s.fullName)])]
                rw [List.forall_mem_cons, v4cidrsOf_cons, if_pos hne4,
                    v6cidrsOf_cons, if_pos hne6]
                rw [noNewOverlap_extend _ s.fullName _ _ hvc4.2,
                    noNewOverlap_extend _ s.fullName _ _ hvc6.2]
                constructor
                · rintro ⟨hl, ha, hb⟩
                  exact ⟨⟨⟨hasnne, Or.inl hne4,
                    fun _ => isValidCIDR_parse hvc4.1,
                    fun _ => isValidCIDR_parse hvc6.1⟩, hl⟩, ha, hb⟩
                · rintro ⟨⟨-, hl⟩, ha, hb⟩
                  exact ⟨hl, ha, hb⟩
              · rw [if_neg hne6]
                have h6e : s.session.LocalCIDR.IPv6 = "" := not_not.mp hne6
                rw [ih (v4s ++ [(s.session.LocalCIDR.IPv4, s.fullName)]) v6s]
                rw [List.forall_mem_cons, v4cidrsOf_cons, if_pos hne4,
                    v6cidrsOf_cons, if_neg hne6]
                rw [noNewOverlap_extend _ s.fullName _ _ hvc4.2]
                constructor
                · rintro ⟨hl, ha, hb⟩
                  exact ⟨⟨⟨hasnne, Or.inl hne4,
                    fun _ => isValidCIDR_parse hvc4.1,
                    fun hx => absurd hx hne6⟩, hl⟩, ha, hb⟩
                · rintro ⟨⟨-, hl⟩, ha, hb⟩
                  exact ⟨hl, ha, hb⟩
            · rw [if_neg hne4]
              have h4e : s.session.LocalCIDR.IPv4 = "" := not_not.mp hne4
              by_cases hne6 : s.session.LocalCIDR.IPv6 ≠ ""
              · rw [if_pos hne6] at h6 ⊢
                have hvc6 := (validateCIDRGo_none_iff s _ v6s).mp h6
                rw [ih v4s (v6s ++ [(s.session.LocalCIDR.IPv6, s.fullName)])]
                rw [List.forall_mem_cons, v4cidrsOf_cons, if_neg hne4,
                    v6cidrsOf_cons, if_pos hne6]
                rw [noNewOverlap_extend _ s.fullName _ _ hvc6.2]
                constructor
                · rintro ⟨hl, ha, hb⟩
                  exact ⟨⟨⟨hasnne, Or.inr hne6,
                    fun hx => absurd hx hne4,
                    fun _ => isValidCIDR_parse hvc6.1⟩, hl⟩, ha, hb⟩
                · rintro ⟨⟨-, hl⟩, ha, hb⟩
                  exact ⟨hl, ha, hb⟩
              · exfalso
                have h6e : s.session.LocalCIDR.IPv6 = "" := not_not.mp hne6
                apply hboth
                rw [decide_eq_true h4e, decide_eq_true h6e]
                rfl

/-- C5: `ValidateHostSessions` over the sessions collected from the L3VNIs
and L3Passthroughs returns nil exactly when every session has distinct local
and host ASNs, at least one LocalCIDR set, every non-empty CIDR parses, and
the CIDRs of each address family (field) are pairwise non-overlapping under
the symmetric containment test; differing-family CIDRs are never compared.
Equivalently, it returns an error iff some session has equal ASNs, both
fields empty, an unparseable non-empty CIDR, or a same-family overlap. -/
theorem c5_host_sessions_characterization (l3 : List L3VNI) (pts : List L3Passthrough) :
    (ValidateHostSessions l3 pts).1 = none ↔
      goodHostSessions (collectHostSessions l3 pts) := by
  rw [ValidateHostSessions, goodHostSessions]
  rw [validateHostSessionsLoop_none_iff (collectHostSessions l3 pts) [] []]
  rw [show (([] : List (String × String)).map Prod.fst) = [] from rfl]
  rw [noNewOverlap_iff, noNewOverlap_iff]
  simp

/-- Witness for C9 (amended) at a concrete input: a single zero-ASN underlay
fails validation with a failure report for that underlay. -/
theorem c9_witness :
    (ValidateUnderlays [{ name := "u0", ASN := 0 }]).1.isSome = true
    ∧ (([{ name := "u0", ASN := 0 }] : List Underlay).length ≤ 1 →
        (ValidateUnderlays [{ name := "u0", ASN := 0 }]).2 = [.failure .underlay "u0"]) :=
  c9_zero_asn [{ name := "u0", ASN := 0 }] { name := "u0", ASN := 0 }
    (List.mem_singleton.mpr rfl) rfl
